import Mathlib

/-!
Verification of the local-first storage synchronization engine of the
`intentionality-web` repository.

The development shallowly embeds the engine's components:

* the entity data model (`src/lib/types.ts`),
* `SyncQueue` (`src/lib/sync/sync-queue.ts`), modelled as a pure state
  machine over a queue list plus the persisted `localStorage` value,
* `LocalStorageAdapter` (`src/lib/sync/local-storage-adapter.ts`), over a
  medium that can refuse writes (quota failures),
* `StorageManager` (`src/lib/sync/storage-manager.ts`) mutating facade,
* `SyncWorker.processQueue` / `SyncWorker.pullFromRemote`
  (`src/lib/sync/sync-worker.ts`), with remote execution and remote
  fetches abstracted as oracles (any throwing behaviour of the remote
  adapter is a `false` / `.error` oracle answer),
* the wire-format translation of `RemoteStorageAdapter`
  (`src/lib/sync/remote-storage-adapter.ts`).

JavaScript objects are embedded as structures; `localStorage` is embedded
as typed per-key state (JSON serialization is identity on the model);
thrown exceptions are embedded as `Except` values, and a `try`/`catch`
that swallows an error is embedded by returning the pre-error state.
All functions are total: totality of an embedded function is the model's
rendering of "this call never throws to its caller".
-/

namespace IntentionalitySync

/-! ### Entity data model (`src/lib/types.ts`)

`Record<string, boolean>` (the completion history of daily tasks) is
embedded as an association list; `number` fields are embedded as `Int`
(they hold orders, minute and second counts). Optional (`?`) fields are
embedded as `Option`. -/

structure Task where
  id : String
  title : String
  description : Option String
  completed : Bool
  dueDate : Option String
  projectId : Option String
  parentTaskId : Option String
  order : Int
  isDaily : Bool
  timePeriod : Option Int
  timeLeft : Option Int
  lastCompleted : Option String
  completionHistory : Option (List (String × Bool))
  tags : Option (List String)
  createdAt : String
deriving DecidableEq, Repr

structure Project where
  id : String
  name : String
  description : Option String
  completed : Bool
  order : Int
  tags : Option (List String)
  createdAt : String
deriving DecidableEq, Repr

structure Tag where
  id : String
  name : String
  color : Option String
  createdAt : String
deriving DecidableEq, Repr

/-- Task-tag join record, shape as produced by
`LocalStorageAdapter.addTaskTag` and `RemoteStorageAdapter.dbToTaskTag`. -/
structure TaskTag where
  taskId : String
  tagId : String
  createdAt : String
deriving DecidableEq, Repr

/-- Project-tag join record, shape as produced by
`LocalStorageAdapter.addProjectTag` and `RemoteStorageAdapter.dbToProjectTag`. -/
structure ProjectTag where
  projectId : String
  tagId : String
  createdAt : String
deriving DecidableEq, Repr

structure TodayTask where
  taskId : String
  order : Int
deriving DecidableEq, Repr

/-! ### Queue data model (`src/lib/sync/types.ts`) -/

/-- The closed set of queueable mutation kinds (`enum OperationType`). -/
inductive OperationType where
  | ADD_TASK | UPDATE_TASK | DELETE_TASK | REORDER_TASKS
  | ADD_PROJECT | UPDATE_PROJECT | DELETE_PROJECT | REORDER_PROJECTS
  | ADD_TAG | UPDATE_TAG | DELETE_TAG
  | ADD_TASK_TAG | REMOVE_TASK_TAG
  | ADD_PROJECT_TAG | REMOVE_PROJECT_TAG
  | ADD_TODAY_TASK | REMOVE_TODAY_TASK | REORDER_TODAY_TASKS
deriving DecidableEq, Repr

/-- `status: "pending" | "processing" | "failed"` of `QueuedOperation`. -/
inductive OpStatus where
  | pending | processing | failed
deriving DecidableEq, Repr

/-- `interface QueuedOperation`, generic over the payload type (the code
types the payload `unknown`; each theorem instantiates `α` as needed). -/
structure QueuedOperation (α : Type) where
  id : String
  type : OperationType
  payload : α
  timestamp : Nat
  retries : Nat
  status : OpStatus
deriving DecidableEq, Repr

/-! ### `SyncQueue` (`src/lib/sync/sync-queue.ts`)

The class state is the in-memory `queue` array together with the value
stored under the `"sync_queue"` key of `localStorage` (`none` when no
value is stored), plus the environment property `writeFails` stating
whether `localStorage.setItem` on the queue key throws (quota exceeded) —
the failure `persistQueue` catches and swallows.
`JSON.parse ∘ JSON.stringify` is the identity on the model, so the stored
value is itself a list of operations. -/

structure SyncQueueState (α : Type) where
  queue : List (QueuedOperation α)
  medium : Option (List (QueuedOperation α))
  writeFails : Bool
deriving DecidableEq, Repr

namespace SyncQueueState

/-- `loadQueue`: read the persisted value; absence (and the caught parse
failure) leaves the initial empty queue. -/
def loadQueue {α : Type} (medium : Option (List (QueuedOperation α))) :
    List (QueuedOperation α) :=
  medium.getD []

/-- The `SyncQueue` constructor: load the queue from the medium (the
`writeFails` environment property carries over unchanged). -/
def construct {α : Type} (medium : Option (List (QueuedOperation α)))
    (writeFails : Bool) : SyncQueueState α :=
  { queue := loadQueue medium, medium := medium, writeFails := writeFails }

/-- `persistQueue`: store the serialized queue under the queue key; a
`setItem` quota failure is caught and logged, leaving the stored value
stale. -/
def persistQueue {α : Type} (s : SyncQueueState α) : SyncQueueState α :=
  if s.writeFails then s else { s with medium := some s.queue }

/-- `enqueue(type, payload)`: push a fresh operation (caller-supplied fresh
id and `Date.now()` timestamp) with `retries: 0, status: "pending"`, then
persist. -/
def enqueue {α : Type} (freshId : String) (now : Nat) (type : OperationType)
    (payload : α) (s : SyncQueueState α) : SyncQueueState α :=
  persistQueue { s with
    queue := s.queue ++
      [{ id := freshId, type := type, payload := payload, timestamp := now,
         retries := 0, status := OpStatus.pending }] }

/-- The comparator of `getNextBatch`: `(a, b) => a.timestamp - b.timestamp`
sorts ascending by timestamp; `Array.prototype.sort` is stable, matching
`List.mergeSort`. -/
def tsLe {α : Type} (a b : QueuedOperation α) : Bool :=
  a.timestamp ≤ b.timestamp

/-- `getNextBatch(batchSize)`: the pending operations, sorted ascending by
timestamp, truncated to the batch size. -/
def getNextBatch {α : Type} (batchSize : Nat) (s : SyncQueueState α) :
    List (QueuedOperation α) :=
  ((s.queue.filter fun op => op.status == OpStatus.pending).mergeSort
    tsLe).take batchSize

/-- `getNextBatch` as a method call: it returns the batch and performs no
write to `this.queue` and no `persistQueue`, so the post-state is the
pre-state. -/
def getNextBatchCall {α : Type} (batchSize : Nat) (s : SyncQueueState α) :
    List (QueuedOperation α) × SyncQueueState α :=
  (getNextBatch batchSize s, s)

/-- `markComplete(operationId)`: drop every operation with that id, then
persist. -/
def markComplete {α : Type} (operationId : String) (s : SyncQueueState α) :
    SyncQueueState α :=
  persistQueue { s with
    queue := s.queue.filter fun op => ¬ (op.id = operationId) }

/-- The mutation performed by `markFailed` on the queue array: `find`
locates the first operation with the given id and mutates it in place. -/
def markFailedList {α : Type} (operationId : String) :
    List (QueuedOperation α) → List (QueuedOperation α)
  | [] => []
  | op :: rest =>
    if op.id = operationId then
      { op with status := OpStatus.failed, retries := op.retries + 1 } :: rest
    else
      op :: markFailedList operationId rest

/-- `markFailed(operationId)`: if `find` locates the operation, set
`status = "failed"`, increment `retries`, persist; otherwise do nothing
(in particular, no persist). -/
def markFailed {α : Type} (operationId : String) (s : SyncQueueState α) :
    SyncQueueState α :=
  if s.queue.any fun op => op.id == operationId then
    persistQueue { s with queue := markFailedList operationId s.queue }
  else
    s

/-- Per-operation effect of `retryFailed` (`maxRetries = 3`). -/
def retryOp {α : Type} (op : QueuedOperation α) : QueuedOperation α :=
  if op.status = OpStatus.failed ∧ op.retries < 3 then
    { op with status := OpStatus.pending }
  else
    op

/-- `retryFailed()`: reset every failed operation with `retries < 3` to
pending, then persist (the persist is unconditional). -/
def retryFailed {α : Type} (s : SyncQueueState α) : SyncQueueState α :=
  persistQueue { s with queue := s.queue.map retryOp }

/-- `getPendingCount()`. -/
def getPendingCount {α : Type} (s : SyncQueueState α) : Nat :=
  (s.queue.filter fun op => op.status == OpStatus.pending).length

/-- `getFailedCount()`. -/
def getFailedCount {α : Type} (s : SyncQueueState α) : Nat :=
  (s.queue.filter fun op => op.status == OpStatus.failed).length

/-- `clearQueue()`. -/
def clearQueue {α : Type} (s : SyncQueueState α) : SyncQueueState α :=
  persistQueue { s with queue := [] }

end SyncQueueState

/-! ### `Partial<...>` update records

`Partial<T>` payloads of the update facade calls: every field optional; a
`some` field overwrites the target field on spread-merge
(`{ ...old, ...updates }`). -/

structure TaskUpdates where
  id : Option String := none
  title : Option String := none
  description : Option String := none
  completed : Option Bool := none
  dueDate : Option String := none
  projectId : Option String := none
  parentTaskId : Option String := none
  order : Option Int := none
  isDaily : Option Bool := none
  timePeriod : Option Int := none
  timeLeft : Option Int := none
  lastCompleted : Option String := none
  completionHistory : Option (List (String × Bool)) := none
  tags : Option (List String) := none
  createdAt : Option String := none
deriving DecidableEq, Repr

def applyTaskUpdates (t : Task) (u : TaskUpdates) : Task :=
  { id := u.id.getD t.id
    title := u.title.getD t.title
    description := u.description.orElse fun _ => t.description
    completed := u.completed.getD t.completed
    dueDate := u.dueDate.orElse fun _ => t.dueDate
    projectId := u.projectId.orElse fun _ => t.projectId
    parentTaskId := u.parentTaskId.orElse fun _ => t.parentTaskId
    order := u.order.getD t.order
    isDaily := u.isDaily.getD t.isDaily
    timePeriod := u.timePeriod.orElse fun _ => t.timePeriod
    timeLeft := u.timeLeft.orElse fun _ => t.timeLeft
    lastCompleted := u.lastCompleted.orElse fun _ => t.lastCompleted
    completionHistory := u.completionHistory.orElse fun _ => t.completionHistory
    tags := u.tags.orElse fun _ => t.tags
    createdAt := u.createdAt.getD t.createdAt }

structure ProjectUpdates where
  id : Option String := none
  name : Option String := none
  description : Option String := none
  completed : Option Bool := none
  order : Option Int := none
  tags : Option (List String) := none
  createdAt : Option String := none
deriving DecidableEq, Repr

def applyProjectUpdates (p : Project) (u : ProjectUpdates) : Project :=
  { id := u.id.getD p.id
    name := u.name.getD p.name
    description := u.description.orElse fun _ => p.description
    completed := u.completed.getD p.completed
    order := u.order.getD p.order
    tags := u.tags.orElse fun _ => p.tags
    createdAt := u.createdAt.getD p.createdAt }

structure TagUpdates where
  id : Option String := none
  name : Option String := none
  color : Option String := none
  createdAt : Option String := none
deriving DecidableEq, Repr

def applyTagUpdates (t : Tag) (u : TagUpdates) : Tag :=
  { id := u.id.getD t.id
    name := u.name.getD t.name
    color := u.color.orElse fun _ => t.color
    createdAt := u.createdAt.getD t.createdAt }

/-! ### `LocalStorageAdapter` (`src/lib/sync/local-storage-adapter.ts`)

The `localStorage` medium holds one JSON-serialized array per fixed key;
the model keeps each collection typed. A key listed in `writeFailKeys`
makes `localStorage.setItem` on that key throw (quota exceeded);
`writeToStorage` catches, logs and swallows that error, leaving the
medium unchanged. -/

def TASKS_KEY : String := "tasks"
def PROJECTS_KEY : String := "projects"
def TODAY_KEY : String := "today"
def TAGS_KEY : String := "tags"
def TASK_TAGS_KEY : String := "task_tags"
def PROJECT_TAGS_KEY : String := "project_tags"

structure LocalMedium where
  tasks : List Task
  projects : List Project
  tags : List Tag
  taskTags : List TaskTag
  projectTags : List ProjectTag
  today : List TodayTask
  writeFailKeys : List String
deriving DecidableEq, Repr

namespace LocalMedium

/-- `localStorage.setItem(TASKS_KEY, ...)`: throws on a failing key. -/
def setTasks (m : LocalMedium) (v : List Task) : Except String LocalMedium :=
  if m.writeFailKeys.contains TASKS_KEY then Except.error "QuotaExceededError"
  else Except.ok { m with tasks := v }

def setProjects (m : LocalMedium) (v : List Project) : Except String LocalMedium :=
  if m.writeFailKeys.contains PROJECTS_KEY then Except.error "QuotaExceededError"
  else Except.ok { m with projects := v }

def setTags (m : LocalMedium) (v : List Tag) : Except String LocalMedium :=
  if m.writeFailKeys.contains TAGS_KEY then Except.error "QuotaExceededError"
  else Except.ok { m with tags := v }

def setTaskTags (m : LocalMedium) (v : List TaskTag) : Except String LocalMedium :=
  if m.writeFailKeys.contains TASK_TAGS_KEY then Except.error "QuotaExceededError"
  else Except.ok { m with taskTags := v }

def setProjectTags (m : LocalMedium) (v : List ProjectTag) : Except String LocalMedium :=
  if m.writeFailKeys.contains PROJECT_TAGS_KEY then Except.error "QuotaExceededError"
  else Except.ok { m with projectTags := v }

def setToday (m : LocalMedium) (v : List TodayTask) : Except String LocalMedium :=
  if m.writeFailKeys.contains TODAY_KEY then Except.error "QuotaExceededError"
  else Except.ok { m with today := v }

end LocalMedium

namespace LocalStorageAdapter

/-- `writeToStorage` on the tasks key: the `try`/`catch` swallows the
`setItem` error, leaving the medium as it was. -/
def writeTasks (m : LocalMedium) (v : List Task) : LocalMedium :=
  match m.setTasks v with
  | Except.ok m2 => m2
  | Except.error _ => m

def writeProjects (m : LocalMedium) (v : List Project) : LocalMedium :=
  match m.setProjects v with
  | Except.ok m2 => m2
  | Except.error _ => m

def writeTags (m : LocalMedium) (v : List Tag) : LocalMedium :=
  match m.setTags v with
  | Except.ok m2 => m2
  | Except.error _ => m

def writeTaskTags (m : LocalMedium) (v : List TaskTag) : LocalMedium :=
  match m.setTaskTags v with
  | Except.ok m2 => m2
  | Except.error _ => m

def writeProjectTags (m : LocalMedium) (v : List ProjectTag) : LocalMedium :=
  match m.setProjectTags v with
  | Except.ok m2 => m2
  | Except.error _ => m

def writeToday (m : LocalMedium) (v : List TodayTask) : LocalMedium :=
  match m.setToday v with
  | Except.ok m2 => m2
  | Except.error _ => m

/-- `tasks[index] = {...tasks[index], ...updates}` where `index` is
`findIndex`: merge into the first entry with the given id. -/
def updateFirstTask (id : String) (u : TaskUpdates) :
    List Task → List Task
  | [] => []
  | t :: rest =>
    if t.id = id then applyTaskUpdates t u :: rest
    else t :: updateFirstTask id u rest

def updateFirstProject (id : String) (u : ProjectUpdates) :
    List Project → List Project
  | [] => []
  | p :: rest =>
    if p.id = id then applyProjectUpdates p u :: rest
    else p :: updateFirstProject id u rest

def updateFirstTag (id : String) (u : TagUpdates) :
    List Tag → List Tag
  | [] => []
  | t :: rest =>
    if t.id = id then applyTagUpdates t u :: rest
    else t :: updateFirstTag id u rest

/-- `addTask`: read, push, write. -/
def addTask (m : LocalMedium) (task : Task) : LocalMedium :=
  writeTasks m (m.tasks ++ [task])

/-- `updateTask`: merge into the first matching entry and write; unknown
id (`findIndex === -1`) is a silent no-op without a write. -/
def updateTask (m : LocalMedium) (id : String) (u : TaskUpdates) : LocalMedium :=
  if m.tasks.any fun t => t.id == id then
    writeTasks m (updateFirstTask id u m.tasks)
  else
    m

/-- `deleteTask`: filter out the id and write (always writes). -/
def deleteTask (m : LocalMedium) (id : String) : LocalMedium :=
  writeTasks m (m.tasks.filter fun t => ¬ (t.id = id))

/-- `reorderTasks`: for each stored task, take the `order` of its entry in
the reordered list if present. The lookup map is a JS `Map` built from the
list, so on duplicate ids the last entry wins. -/
def reorderTasks (m : LocalMedium) (reordered : List Task) : LocalMedium :=
  writeTasks m (m.tasks.map fun task =>
    match reordered.reverse.find? fun r => r.id == task.id with
    | some r => { task with order := r.order }
    | none => task)

def addProject (m : LocalMedium) (project : Project) : LocalMedium :=
  writeProjects m (m.projects ++ [project])

def updateProject (m : LocalMedium) (id : String) (u : ProjectUpdates) : LocalMedium :=
  if m.projects.any fun p => p.id == id then
    writeProjects m (updateFirstProject id u m.projects)
  else
    m

def deleteProject (m : LocalMedium) (id : String) : LocalMedium :=
  writeProjects m (m.projects.filter fun p => ¬ (p.id = id))

def reorderProjects (m : LocalMedium) (reordered : List Project) : LocalMedium :=
  writeProjects m (m.projects.map fun project =>
    match reordered.reverse.find? fun r => r.id == project.id with
    | some r => { project with order := r.order }
    | none => project)

def addTag (m : LocalMedium) (tag : Tag) : LocalMedium :=
  writeTags m (m.tags ++ [tag])

def updateTag (m : LocalMedium) (id : String) (u : TagUpdates) : LocalMedium :=
  if m.tags.any fun t => t.id == id then
    writeTags m (updateFirstTag id u m.tags)
  else
    m

def deleteTag (m : LocalMedium) (id : String) : LocalMedium :=
  writeTags m (m.tags.filter fun t => ¬ (t.id = id))

/-- `addTaskTag`: deduplicated by an existence check; `createdAt` is
`new Date().toISOString()`, threaded as the `nowIso` argument. -/
def addTaskTag (m : LocalMedium) (taskId tagId nowIso : String) : LocalMedium :=
  if m.taskTags.any fun tt => tt.taskId == taskId && tt.tagId == tagId then
    m
  else
    writeTaskTags m (m.taskTags ++
      [{ taskId := taskId, tagId := tagId, createdAt := nowIso }])

def removeTaskTag (m : LocalMedium) (taskId tagId : String) : LocalMedium :=
  writeTaskTags m (m.taskTags.filter fun tt =>
    ¬ (tt.taskId = taskId ∧ tt.tagId = tagId))

def addProjectTag (m : LocalMedium) (projectId tagId nowIso : String) : LocalMedium :=
  if m.projectTags.any fun pt => pt.projectId == projectId && pt.tagId == tagId then
    m
  else
    writeProjectTags m (m.projectTags ++
      [{ projectId := projectId, tagId := tagId, createdAt := nowIso }])

def removeProjectTag (m : LocalMedium) (projectId tagId : String) : LocalMedium :=
  writeProjectTags m (m.projectTags.filter fun pt =>
    ¬ (pt.projectId = projectId ∧ pt.tagId = tagId))

def saveTodayTasks (m : LocalMedium) (todayTasks : List TodayTask) : LocalMedium :=
  writeToday m todayTasks

end LocalStorageAdapter

/-! ### `StorageManager` (`src/lib/sync/storage-manager.ts`)

The mutating facade methods all have the shape "apply to the local
adapter, then enqueue iff `enableRemoteSync`". They are collected into
one dispatcher indexed by the call (`MutationCall`), each branch
transcribing the corresponding method body. The payloads the methods
pass to `enqueue` are embedded by the `Payload` sum. -/

/-- The payload shapes that the `StorageManager` facade passes to
`SyncQueue.enqueue` (the queue itself types the payload `unknown`). -/
inductive Payload where
  | pTask (t : Task)
  | pTaskUpdate (id : String) (updates : TaskUpdates)
  | pProject (p : Project)
  | pProjectUpdate (id : String) (updates : ProjectUpdates)
  | pTag (t : Tag)
  | pTagUpdate (id : String) (updates : TagUpdates)
  | pId (id : String)
  | pTasks (tasks : List Task)
  | pProjects (projects : List Project)
  | pTaskTagIds (taskId tagId : String)
  | pProjectTagIds (projectId tagId : String)
  | pTodayTasks (todayTasks : List TodayTask)
deriving DecidableEq, Repr

/-- One constructor per mutating facade method, carrying its arguments. -/
inductive MutationCall where
  | addTask (t : Task)
  | updateTask (id : String) (updates : TaskUpdates)
  | deleteTask (id : String)
  | reorderTasks (tasks : List Task)
  | addProject (p : Project)
  | updateProject (id : String) (updates : ProjectUpdates)
  | deleteProject (id : String)
  | reorderProjects (projects : List Project)
  | addTag (t : Tag)
  | updateTag (id : String) (updates : TagUpdates)
  | deleteTag (id : String)
  | addTaskTag (taskId tagId : String)
  | removeTaskTag (taskId tagId : String)
  | addProjectTag (projectId tagId : String)
  | removeProjectTag (projectId tagId : String)
  | saveTodayTasks (todayTasks : List TodayTask)
deriving DecidableEq, Repr

/-- The `OperationType` each facade method enqueues
(`saveTodayTasks` enqueues `REORDER_TODAY_TASKS`). -/
def mutationOpType : MutationCall → OperationType
  | MutationCall.addTask _ => OperationType.ADD_TASK
  | MutationCall.updateTask _ _ => OperationType.UPDATE_TASK
  | MutationCall.deleteTask _ => OperationType.DELETE_TASK
  | MutationCall.reorderTasks _ => OperationType.REORDER_TASKS
  | MutationCall.addProject _ => OperationType.ADD_PROJECT
  | MutationCall.updateProject _ _ => OperationType.UPDATE_PROJECT
  | MutationCall.deleteProject _ => OperationType.DELETE_PROJECT
  | MutationCall.reorderProjects _ => OperationType.REORDER_PROJECTS
  | MutationCall.addTag _ => OperationType.ADD_TAG
  | MutationCall.updateTag _ _ => OperationType.UPDATE_TAG
  | MutationCall.deleteTag _ => OperationType.DELETE_TAG
  | MutationCall.addTaskTag _ _ => OperationType.ADD_TASK_TAG
  | MutationCall.removeTaskTag _ _ => OperationType.REMOVE_TASK_TAG
  | MutationCall.addProjectTag _ _ => OperationType.ADD_PROJECT_TAG
  | MutationCall.removeProjectTag _ _ => OperationType.REMOVE_PROJECT_TAG
  | MutationCall.saveTodayTasks _ => OperationType.REORDER_TODAY_TASKS

/-- The payload each facade method passes to `enqueue`. -/
def mutationPayload : MutationCall → Payload
  | MutationCall.addTask t => Payload.pTask t
  | MutationCall.updateTask id u => Payload.pTaskUpdate id u
  | MutationCall.deleteTask id => Payload.pId id
  | MutationCall.reorderTasks ts => Payload.pTasks ts
  | MutationCall.addProject p => Payload.pProject p
  | MutationCall.updateProject id u => Payload.pProjectUpdate id u
  | MutationCall.deleteProject id => Payload.pId id
  | MutationCall.reorderProjects ps => Payload.pProjects ps
  | MutationCall.addTag t => Payload.pTag t
  | MutationCall.updateTag id u => Payload.pTagUpdate id u
  | MutationCall.deleteTag id => Payload.pId id
  | MutationCall.addTaskTag taskId tagId => Payload.pTaskTagIds taskId tagId
  | MutationCall.removeTaskTag taskId tagId => Payload.pTaskTagIds taskId tagId
  | MutationCall.addProjectTag projectId tagId => Payload.pProjectTagIds projectId tagId
  | MutationCall.removeProjectTag projectId tagId => Payload.pProjectTagIds projectId tagId
  | MutationCall.saveTodayTasks tts => Payload.pTodayTasks tts

/-- The `LocalStorageAdapter` call each facade method performs
(`nowIso` is the `new Date().toISOString()` the adapter would read for the
tag-link inserts). -/
def mutationLocal (c : MutationCall) (nowIso : String) (m : LocalMedium) :
    LocalMedium :=
  match c with
  | MutationCall.addTask t => LocalStorageAdapter.addTask m t
  | MutationCall.updateTask id u => LocalStorageAdapter.updateTask m id u
  | MutationCall.deleteTask id => LocalStorageAdapter.deleteTask m id
  | MutationCall.reorderTasks ts => LocalStorageAdapter.reorderTasks m ts
  | MutationCall.addProject p => LocalStorageAdapter.addProject m p
  | MutationCall.updateProject id u => LocalStorageAdapter.updateProject m id u
  | MutationCall.deleteProject id => LocalStorageAdapter.deleteProject m id
  | MutationCall.reorderProjects ps => LocalStorageAdapter.reorderProjects m ps
  | MutationCall.addTag t => LocalStorageAdapter.addTag m t
  | MutationCall.updateTag id u => LocalStorageAdapter.updateTag m id u
  | MutationCall.deleteTag id => LocalStorageAdapter.deleteTag m id
  | MutationCall.addTaskTag taskId tagId => LocalStorageAdapter.addTaskTag m taskId tagId nowIso
  | MutationCall.removeTaskTag taskId tagId => LocalStorageAdapter.removeTaskTag m taskId tagId
  | MutationCall.addProjectTag projectId tagId => LocalStorageAdapter.addProjectTag m projectId tagId nowIso
  | MutationCall.removeProjectTag projectId tagId => LocalStorageAdapter.removeProjectTag m projectId tagId
  | MutationCall.saveTodayTasks tts => LocalStorageAdapter.saveTodayTasks m tts

/-- `StorageManager` state: the local adapter's medium, the queue, and the
constructor flag `enableRemoteSync`. -/
structure ManagerState where
  localMedium : LocalMedium
  queue : SyncQueueState Payload
  enableRemoteSync : Bool
deriving DecidableEq, Repr

namespace StorageManager

/-- A mutating facade call: `await this.localAdapter.<method>(...)`, then
`if (this.enableRemoteSync) this.queue.enqueue(<type>, <payload>)`.
`freshId` and `now` stand for the id `generateId()` mints and the
`Date.now()` timestamp inside `enqueue`; `nowIso` for the tag-link
`createdAt`. -/
def mutate (c : MutationCall) (freshId : String) (now : Nat) (nowIso : String)
    (st : ManagerState) : ManagerState :=
  { st with
    localMedium := mutationLocal c nowIso st.localMedium
    queue :=
      if st.enableRemoteSync then
        SyncQueueState.enqueue freshId now (mutationOpType c)
          (mutationPayload c) st.queue
      else
        st.queue }

/-- `getSyncStatus().pending` / `.failed` come from the queue counts. -/
def getSyncStatusCounts (st : ManagerState) : Nat × Nat :=
  (st.queue.getPendingCount, st.queue.getFailedCount)

end StorageManager

/-! ### `SyncWorker` (`src/lib/sync/sync-worker.ts`)

`executeOperation` dispatches on the operation type to a remote call and
either resolves or throws; the model abstracts it as an oracle
`exec : QueuedOperation α → Bool` (`true` = the remote call resolved,
`false` = it threw — including the `default` branch's own throw on an
unknown type). `navigator.onLine` is the `online` field. -/

structure WorkerState (α : Type) where
  queueState : SyncQueueState α
  isProcessing : Bool
  online : Bool
deriving DecidableEq, Repr

namespace SyncWorker

/-- The `for (const operation of batch)` loop of `processQueue`: strictly
sequential; per operation, success ends `markComplete`, a caught throw
ends `markFailed`, and the loop continues either way. -/
def processBatch {α : Type} (exec : QueuedOperation α → Bool) :
    List (QueuedOperation α) → SyncQueueState α → SyncQueueState α
  | [], s => s
  | op :: rest, s =>
    let s2 :=
      if exec op then SyncQueueState.markComplete op.id s
      else SyncQueueState.markFailed op.id s
    processBatch exec rest s2

/-- `processQueue()`: return immediately if a pass is in progress or the
client is offline; otherwise set the guard, drain one batch of at most 10
operations, and clear the guard in the `finally`. -/
def processQueue {α : Type} (exec : QueuedOperation α → Bool)
    (w : WorkerState α) : WorkerState α :=
  if w.isProcessing then w
  else if !w.online then w
  else
    { w with
      queueState :=
        processBatch exec (SyncQueueState.getNextBatch 10 w.queueState)
          w.queueState
      isProcessing := false }

/-- The six remote fetch results `pullFromRemote` awaits, each either a
resolved collection or a rejection. -/
structure FetchResults where
  tasks : Except String (List Task)
  projects : Except String (List Project)
  tags : Except String (List Tag)
  taskTags : Except String (List TaskTag)
  projectTags : Except String (List ProjectTag)
  today : Except String (List TodayTask)
deriving Repr

/-- `Promise.all` over the six fetches: rejects as soon as any fetch
rejects, otherwise resolves with all six collections. -/
def fetchAll (f : FetchResults) :
    Except String
      (List Task × List Project × List Tag × List TaskTag ×
        List ProjectTag × List TodayTask) := do
  let tasks ← f.tasks
  let projects ← f.projects
  let tags ← f.tags
  let taskTags ← f.taskTags
  let projectTags ← f.projectTags
  let today ← f.today
  pure (tasks, projects, tags, taskTags, projectTags, today)

/-- `saveToLocal` rethrows its `setItem` error, so inside the
`Promise.allSettled` a failed save settles as rejected (logged) and the
other saves still run; the model applies the settled saves in array
order, each skipped on its own failure. -/
def settleSave {γ : Type} (save : LocalMedium → γ → Except String LocalMedium)
    (v : γ) (m : LocalMedium) : LocalMedium :=
  match save m v with
  | Except.ok m2 => m2
  | Except.error _ => m

/-- `pullFromRemote()`: skip offline; `Promise.all` the six fetches — one
rejection reaches the outer `catch` (logged, not rethrown) with nothing
saved; on full success, save each collection under `allSettled`
isolation. -/
def pullFromRemote (f : FetchResults) (online : Bool) (m : LocalMedium) :
    LocalMedium :=
  if !online then m
  else
    match fetchAll f with
    | Except.error _ => m
    | Except.ok (tasks, projects, tags, taskTags, projectTags, today) =>
      let m1 := settleSave LocalMedium.setTasks tasks m
      let m2 := settleSave LocalMedium.setProjects projects m1
      let m3 := settleSave LocalMedium.setTags tags m2
      let m4 := settleSave LocalMedium.setTaskTags taskTags m3
      let m5 := settleSave LocalMedium.setProjectTags projectTags m4
      settleSave LocalMedium.setToday today m5

end SyncWorker

/-! ### Wire-format translation (`src/lib/sync/remote-storage-adapter.ts`)

A wire record (`Record<string, unknown>` as serialized over PostgREST) is
an association list from keys to JSON-able values. `xToDb` emits one
entry per own property of the in-memory object — a property is present
exactly when the (optional) field is `some` — with `toSnakeCase` applied
to the key; the subsequent explicit `dbX.foo_bar = x.fooBar` assignments
in `taskToDb` / `projectToDb` / `tagToDb` rewrite the very keys
`toSnakeCase` already produced, so they are no-ops and the map below is
the net result. `dbToX` reads the listed keys back with unchecked casts,
embedded as fallible decoders. -/

inductive DbValue where
  | vStr (v : String)
  | vInt (v : Int)
  | vBool (v : Bool)
  | vHist (v : List (String × Bool))
  | vStrList (v : List String)
deriving DecidableEq, Repr

abbrev DbRecord := List (String × DbValue)

namespace RemoteStorageAdapter

/-- `toSnakeCase` on one key: `key.replace(/[A-Z]/g, l => "_" + l.toLowerCase())`. -/
def snakeCaseKey (k : String) : String :=
  String.mk (k.data.foldr
    (fun c acc => if c.isUpper then '_' :: c.toLower :: acc else c :: acc) [])

/-- Entry list for an optional property: present iff the field is set. -/
def optEntry {γ : Type} (k : String) (f : γ → DbValue) : Option γ → DbRecord
  | some v => [(k, f v)]
  | none => []

/-- The own properties of a `Task` object, in declaration order. -/
def taskEntries (t : Task) : DbRecord :=
  [("id", DbValue.vStr t.id), ("title", DbValue.vStr t.title)]
  ++ optEntry "description" DbValue.vStr t.description
  ++ [("completed", DbValue.vBool t.completed)]
  ++ optEntry "dueDate" DbValue.vStr t.dueDate
  ++ optEntry "projectId" DbValue.vStr t.projectId
  ++ optEntry "parentTaskId" DbValue.vStr t.parentTaskId
  ++ [("order", DbValue.vInt t.order), ("isDaily", DbValue.vBool t.isDaily)]
  ++ optEntry "timePeriod" DbValue.vInt t.timePeriod
  ++ optEntry "timeLeft" DbValue.vInt t.timeLeft
  ++ optEntry "lastCompleted" DbValue.vStr t.lastCompleted
  ++ optEntry "completionHistory" DbValue.vHist t.completionHistory
  ++ optEntry "tags" DbValue.vStrList t.tags
  ++ [("createdAt", DbValue.vStr t.createdAt)]

/-- `taskToDb`: `toSnakeCase` over every own property. -/
def taskToDb (t : Task) : DbRecord :=
  (taskEntries t).map fun kv => (snakeCaseKey kv.1, kv.2)

def asStr : Option DbValue → Option String
  | some (DbValue.vStr v) => some v
  | _ => none

def asInt : Option DbValue → Option Int
  | some (DbValue.vInt v) => some v
  | _ => none

def asBool : Option DbValue → Option Bool
  | some (DbValue.vBool v) => some v
  | _ => none

def asHist : Option DbValue → Option (List (String × Bool))
  | some (DbValue.vHist v) => some v
  | _ => none

/-- `dbToTask`: read the snake-case keys back; the constructed object has
no `tags` property (the function reads no `tags` key), and the casts of
the required fields are embedded as fallible decodes. -/
def dbToTask (r : DbRecord) : Option Task := do
  let id ← asStr (r.lookup "id")
  let title ← asStr (r.lookup "title")
  let completed ← asBool (r.lookup "completed")
  let order ← asInt (r.lookup "order")
  let isDaily ← asBool (r.lookup "is_daily")
  let createdAt ← asStr (r.lookup "created_at")
  pure
    { id := id, title := title
      description := asStr (r.lookup "description")
      completed := completed
      dueDate := asStr (r.lookup "due_date")
      projectId := asStr (r.lookup "project_id")
      parentTaskId := asStr (r.lookup "parent_task_id")
      order := order, isDaily := isDaily
      timePeriod := asInt (r.lookup "time_period")
      timeLeft := asInt (r.lookup "time_left")
      lastCompleted := asStr (r.lookup "last_completed")
      completionHistory := asHist (r.lookup "completion_history")
      tags := none
      createdAt := createdAt }

/-- The own properties of a `Project` object, in declaration order. -/
def projectEntries (p : Project) : DbRecord :=
  [("id", DbValue.vStr p.id), ("name", DbValue.vStr p.name)]
  ++ optEntry "description" DbValue.vStr p.description
  ++ [("completed", DbValue.vBool p.completed), ("order", DbValue.vInt p.order)]
  ++ optEntry "tags" DbValue.vStrList p.tags
  ++ [("createdAt", DbValue.vStr p.createdAt)]

def projectToDb (p : Project) : DbRecord :=
  (projectEntries p).map fun kv => (snakeCaseKey kv.1, kv.2)

/-- `dbToProject`: like `dbToTask`, reads no `tags` key. -/
def dbToProject (r : DbRecord) : Option Project := do
  let id ← asStr (r.lookup "id")
  let name ← asStr (r.lookup "name")
  let completed ← asBool (r.lookup "completed")
  let order ← asInt (r.lookup "order")
  let createdAt ← asStr (r.lookup "created_at")
  pure
    { id := id, name := name
      description := asStr (r.lookup "description")
      completed := completed, order := order
      tags := none
      createdAt := createdAt }

def tagEntries (t : Tag) : DbRecord :=
  [("id", DbValue.vStr t.id), ("name", DbValue.vStr t.name)]
  ++ optEntry "color" DbValue.vStr t.color
  ++ [("createdAt", DbValue.vStr t.createdAt)]

def tagToDb (t : Tag) : DbRecord :=
  (tagEntries t).map fun kv => (snakeCaseKey kv.1, kv.2)

def dbToTag (r : DbRecord) : Option Tag := do
  let id ← asStr (r.lookup "id")
  let name ← asStr (r.lookup "name")
  let createdAt ← asStr (r.lookup "created_at")
  pure
    { id := id, name := name
      color := asStr (r.lookup "color")
      createdAt := createdAt }

/-- Wire form of a task-tag link, as built inline by `addTaskTag`. -/
def taskTagToDb (tt : TaskTag) : DbRecord :=
  [("task_id", DbValue.vStr tt.taskId), ("tag_id", DbValue.vStr tt.tagId),
    ("created_at", DbValue.vStr tt.createdAt)]

def dbToTaskTag (r : DbRecord) : Option TaskTag := do
  let taskId ← asStr (r.lookup "task_id")
  let tagId ← asStr (r.lookup "tag_id")
  let createdAt ← asStr (r.lookup "created_at")
  pure { taskId := taskId, tagId := tagId, createdAt := createdAt }

/-- Wire form of a project-tag link, as built inline by `addProjectTag`. -/
def projectTagToDb (pt : ProjectTag) : DbRecord :=
  [("project_id", DbValue.vStr pt.projectId), ("tag_id", DbValue.vStr pt.tagId),
    ("created_at", DbValue.vStr pt.createdAt)]

def dbToProjectTag (r : DbRecord) : Option ProjectTag := do
  let projectId ← asStr (r.lookup "project_id")
  let tagId ← asStr (r.lookup "tag_id")
  let createdAt ← asStr (r.lookup "created_at")
  pure { projectId := projectId, tagId := tagId, createdAt := createdAt }

/-- Wire form of a today slot, as built inline by `saveTodayTasks`. -/
def todayTaskToDb (tt : TodayTask) : DbRecord :=
  [("task_id", DbValue.vStr tt.taskId), ("order", DbValue.vInt tt.order)]

def dbToTodayTask (r : DbRecord) : Option TodayTask := do
  let taskId ← asStr (r.lookup "task_id")
  let order ← asInt (r.lookup "order")
  pure { taskId := taskId, order := order }

end RemoteStorageAdapter

/-! ### Reachable queue states (for the retry-budget invariant)

One step per `SyncQueue` mutator the drain path uses. The worker's only
`markFailed` call sites pass the id of an operation taken from
`getNextBatch`, i.e. a pending one; the step therefore carries the
hypothesis that every queued operation with the failed id is pending. -/

inductive QueueStep {α : Type} : SyncQueueState α → SyncQueueState α → Prop
  | enqueue (s : SyncQueueState α) (freshId : String) (now : Nat)
      (type : OperationType) (payload : α) :
      QueueStep s (SyncQueueState.enqueue freshId now type payload s)
  | markComplete (s : SyncQueueState α) (operationId : String) :
      QueueStep s (SyncQueueState.markComplete operationId s)
  | markFailedPending (s : SyncQueueState α) (operationId : String)
      (h : ∀ op ∈ s.queue, op.id = operationId → op.status = OpStatus.pending) :
      QueueStep s (SyncQueueState.markFailed operationId s)
  | retryFailed (s : SyncQueueState α) :
      QueueStep s (SyncQueueState.retryFailed s)

/-- States reachable from a freshly constructed queue over an empty
medium (under either write environment) by drain-path steps. -/
inductive QueueReachable {α : Type} : SyncQueueState α → Prop
  | init (writeFails : Bool) : QueueReachable
      (SyncQueueState.construct
        (Option.none : Option (List (QueuedOperation α))) writeFails)
  | step {s t : SyncQueueState α} :
      QueueReachable s → QueueStep s t → QueueReachable t

/-! ## Theorems -/

/-- Whether or not the persist write is swallowed, the in-memory queue is
what the method computed. -/
theorem persistQueue_queue {α : Type} (s : SyncQueueState α) :
    (SyncQueueState.persistQueue s).queue = s.queue := by
  rw [SyncQueueState.persistQueue]
  split <;> rfl

theorem persistQueue_writeFails {α : Type} (s : SyncQueueState α) :
    (SyncQueueState.persistQueue s).writeFails = s.writeFails := by
  rw [SyncQueueState.persistQueue]
  split <;> rfl

/-- A persist on a healthy medium stores exactly the in-memory queue. -/
theorem persistQueue_medium {α : Type} (s : SyncQueueState α)
    (hw : s.writeFails = false) :
    (SyncQueueState.persistQueue s).medium = some s.queue := by
  rw [SyncQueueState.persistQueue, if_neg (by simp [hw])]

/-- A fresh instance constructed after a successful persist reloads the
persisted queue. -/
theorem construct_persistQueue {α : Type} (x : SyncQueueState α)
    (hw : x.writeFails = false) :
    (SyncQueueState.construct (SyncQueueState.persistQueue x).medium
        (SyncQueueState.persistQueue x).writeFails).queue
      = (SyncQueueState.persistQueue x).queue := by
  rw [SyncQueueState.persistQueue, if_neg (by simp [hw])]
  rfl

/-- C4: for every queue state (hence after every sequence of
`enqueue`/`markComplete`/`markFailed`/`retryFailed` calls) and every `n`,
`getNextBatch(n)` returns at most `n` operations, every returned operation
is pending, the returned operations are in non-decreasing
enqueue-timestamp order, and the call (which performs no write and no
persist) leaves the queue state unchanged. -/
theorem getNextBatch_spec {α : Type} (n : Nat) (s : SyncQueueState α) :
    (SyncQueueState.getNextBatch n s).length ≤ n
    ∧ (∀ op ∈ SyncQueueState.getNextBatch n s, op.status = OpStatus.pending)
    ∧ (SyncQueueState.getNextBatch n s).Pairwise
        (fun a b => a.timestamp ≤ b.timestamp)
    ∧ (SyncQueueState.getNextBatchCall n s).2 = s := by
  refine ⟨List.length_take_le n _, ?_, ?_, rfl⟩
  · intro op hop
    have h1 : op ∈ (s.queue.filter
        fun op => op.status == OpStatus.pending).mergeSort SyncQueueState.tsLe :=
      (List.take_sublist n _).mem hop
    have h2 : op ∈ s.queue.filter fun op => op.status == OpStatus.pending :=
      (List.mergeSort_perm _ SyncQueueState.tsLe).mem_iff.mp h1
    simpa using (List.mem_filter.mp h2).2
  · have hs := @List.sorted_mergeSort (QueuedOperation α)
      SyncQueueState.tsLe
      (fun a b c hab hbc => by
        simp only [SyncQueueState.tsLe, decide_eq_true_eq] at *; omega)
      (fun a b => by
        simp only [SyncQueueState.tsLe, Bool.or_eq_true, decide_eq_true_eq]
        omega)
      (s.queue.filter fun op => op.status == OpStatus.pending)
    have hp : ((s.queue.filter
        fun op => op.status == OpStatus.pending).mergeSort
          SyncQueueState.tsLe).Pairwise
        (fun a b => a.timestamp ≤ b.timestamp) := by
      refine hs.imp ?_
      intro a b h
      simpa [SyncQueueState.tsLe] using h
    exact hp.sublist (List.take_sublist n _)

/-- C5: `retryFailed()` maps the per-operation reset over the queue and
that reset sets the status to pending exactly for failed operations with
`retries < 3`; a failed operation with `retries ≥ 3` is left untouched
(it stays failed), and no operation's retries counter, payload, id,
timestamp, or type is changed. -/
theorem retryFailed_spec {α : Type} (s : SyncQueueState α) :
    (SyncQueueState.retryFailed s).queue = s.queue.map SyncQueueState.retryOp
    ∧ ∀ op : QueuedOperation α,
        ((SyncQueueState.retryOp op).status = OpStatus.pending ↔
          (op.status = OpStatus.pending ∨
            (op.status = OpStatus.failed ∧ op.retries < 3)))
        ∧ (op.status = OpStatus.failed → 3 ≤ op.retries →
            SyncQueueState.retryOp op = op)
        ∧ (SyncQueueState.retryOp op).retries = op.retries
        ∧ (SyncQueueState.retryOp op).payload = op.payload
        ∧ (SyncQueueState.retryOp op).id = op.id
        ∧ (SyncQueueState.retryOp op).timestamp = op.timestamp
        ∧ (SyncQueueState.retryOp op).type = op.type := by
  refine ⟨persistQueue_queue _, ?_⟩
  intro op
  unfold SyncQueueState.retryOp
  split
  · rename_i h
    refine ⟨by simp [h], ?_, rfl, rfl, rfl, rfl, rfl⟩
    intro _ h3
    omega
  · rename_i h
    rw [Decidable.not_and_iff_or_not] at h
    refine ⟨?_, fun _ _ => rfl, rfl, rfl, rfl, rfl, rfl⟩
    constructor
    · intro hp
      exact Or.inl hp
    · rintro (hp | ⟨hf, hr⟩)
      · exact hp
      · rcases h with h | h
        · exact absurd hf h
        · omega

/-- C9: `markComplete(id)` is idempotent and total (the model's function
is total, matching that the method never throws): repeating the call is a
no-op on the whole state, and a call with an id no queued operation
carries leaves the queue unchanged. -/
theorem markComplete_idempotent {α : Type} (operationId : String)
    (s : SyncQueueState α) :
    SyncQueueState.markComplete operationId
        (SyncQueueState.markComplete operationId s)
      = SyncQueueState.markComplete operationId s
    ∧ ((∀ op ∈ s.queue, op.id ≠ operationId) →
        (SyncQueueState.markComplete operationId s).queue = s.queue) := by
  have hfil : (s.queue.filter fun op => ¬ (op.id = operationId)).filter
      (fun op => ¬ (op.id = operationId))
      = s.queue.filter fun op => ¬ (op.id = operationId) := by
    refine List.filter_eq_self.mpr ?_
    intro a ha
    exact (List.mem_filter.mp ha).2
  constructor
  · unfold SyncQueueState.markComplete SyncQueueState.persistQueue
    by_cases hw : s.writeFails = true
    · simp [hw, hfil]
    · simp only [Bool.not_eq_true] at hw
      simp [hw, hfil]
  · intro h
    rw [SyncQueueState.markComplete, persistQueue_queue]
    refine List.filter_eq_self.mpr ?_
    intro a ha
    simpa using h a ha

/-- C6: a `processQueue()` call made while the `isProcessing` guard of a
prior invocation is set returns immediately with the state unchanged (no
batch read, no operation executed); likewise a pass started without
network connectivity changes nothing and consumes no retry. -/
theorem processQueue_guard {α : Type} (exec : QueuedOperation α → Bool)
    (w : WorkerState α) :
    (w.isProcessing = true → SyncWorker.processQueue exec w = w)
    ∧ (w.online = false → SyncWorker.processQueue exec w = w) := by
  constructor
  · intro h
    simp [SyncWorker.processQueue, h]
  · intro h
    simp [SyncWorker.processQueue, h]

/-! ### Concrete fixtures used by the witnesses -/

/-- A concrete queued operation over a `Nat` payload. -/
def mkOp (i : String) (ts : Nat) (st : OpStatus) (r : Nat) :
    QueuedOperation Nat :=
  { id := i, type := OperationType.ADD_TASK, payload := 0, timestamp := ts,
    retries := r, status := st }

/-- A concrete queue state: two pending operations enqueued out of
timestamp order, one failed operation below the retry budget, one failed
operation at the budget. -/
def sampleQueueState : SyncQueueState Nat :=
  { queue := [mkOp "a" 5 OpStatus.pending 0, mkOp "b" 3 OpStatus.failed 1,
      mkOp "c" 1 OpStatus.pending 0, mkOp "d" 2 OpStatus.failed 3],
    medium := some [mkOp "a" 5 OpStatus.pending 0, mkOp "b" 3 OpStatus.failed 1,
      mkOp "c" 1 OpStatus.pending 0, mkOp "d" 2 OpStatus.failed 3],
    writeFails := false }

theorem getNextBatch_spec_witness :
    (SyncQueueState.getNextBatch 2 sampleQueueState).length ≤ 2
    ∧ mkOp "c" 1 OpStatus.pending 0 ∈
        SyncQueueState.getNextBatch 2 sampleQueueState
    ∧ (mkOp "c" 1 OpStatus.pending 0).status = OpStatus.pending
    ∧ (SyncQueueState.getNextBatchCall 2 sampleQueueState).2
        = sampleQueueState := by
  have h := getNextBatch_spec 2 sampleQueueState
  have hmem : mkOp "c" 1 OpStatus.pending 0 ∈
      SyncQueueState.getNextBatch 2 sampleQueueState := by
    simp [SyncQueueState.getNextBatch, sampleQueueState, List.mergeSort,
      SyncQueueState.tsLe, mkOp]
  exact ⟨h.1, hmem, h.2.1 _ hmem, h.2.2.2⟩

theorem retryFailed_spec_witness :
    (SyncQueueState.retryFailed sampleQueueState).queue
      = sampleQueueState.queue.map SyncQueueState.retryOp
    ∧ (SyncQueueState.retryOp (mkOp "b" 3 OpStatus.failed 1)).status
        = OpStatus.pending
    ∧ SyncQueueState.retryOp (mkOp "d" 2 OpStatus.failed 3)
        = mkOp "d" 2 OpStatus.failed 3 := by
  have h := retryFailed_spec sampleQueueState
  refine ⟨h.1, ?_, ?_⟩
  · exact ((h.2 (mkOp "b" 3 OpStatus.failed 1)).1).mpr
      (Or.inr ⟨rfl, by decide⟩)
  · exact (h.2 (mkOp "d" 2 OpStatus.failed 3)).2.1 rfl (by decide)

theorem markComplete_idempotent_witness :
    SyncQueueState.markComplete "zz"
        (SyncQueueState.markComplete "zz" sampleQueueState)
      = SyncQueueState.markComplete "zz" sampleQueueState
    ∧ (SyncQueueState.markComplete "zz" sampleQueueState).queue
        = sampleQueueState.queue := by
  have h := markComplete_idempotent "zz" sampleQueueState
  exact ⟨h.1, h.2 (by decide)⟩

theorem processQueue_guard_witness :
    SyncWorker.processQueue (fun _ => true)
        { queueState := sampleQueueState, isProcessing := true, online := true }
      = { queueState := sampleQueueState, isProcessing := true, online := true }
    ∧ SyncWorker.processQueue (fun _ => true)
        { queueState := sampleQueueState, isProcessing := false, online := false }
      = { queueState := sampleQueueState, isProcessing := false,
          online := false } := by
  refine ⟨?_, ?_⟩
  · exact (processQueue_guard (fun _ => true)
      { queueState := sampleQueueState, isProcessing := true,
        online := true }).1 rfl
  · exact (processQueue_guard (fun _ => true)
      { queueState := sampleQueueState, isProcessing := false,
        online := false }).2 rfl

/-! ### The local-first facade guarantee (C1) -/

/-- All fixed collection keys of the `localStorage` medium. -/
def allStorageKeys : List String :=
  [TASKS_KEY, PROJECTS_KEY, TODAY_KEY, TAGS_KEY, TASK_TAGS_KEY,
    PROJECT_TAGS_KEY]

theorem writeTasks_fail (m : LocalMedium)
    (h : m.writeFailKeys.contains TASKS_KEY = true) :
    ∀ v, LocalStorageAdapter.writeTasks m v = m := by
  have hm : TASKS_KEY ∈ m.writeFailKeys := by simpa using h
  intro v
  simp [LocalStorageAdapter.writeTasks, LocalMedium.setTasks, hm]

theorem writeProjects_fail (m : LocalMedium)
    (h : m.writeFailKeys.contains PROJECTS_KEY = true) :
    ∀ v, LocalStorageAdapter.writeProjects m v = m := by
  have hm : PROJECTS_KEY ∈ m.writeFailKeys := by simpa using h
  intro v
  simp [LocalStorageAdapter.writeProjects, LocalMedium.setProjects, hm]

theorem writeTags_fail (m : LocalMedium)
    (h : m.writeFailKeys.contains TAGS_KEY = true) :
    ∀ v, LocalStorageAdapter.writeTags m v = m := by
  have hm : TAGS_KEY ∈ m.writeFailKeys := by simpa using h
  intro v
  simp [LocalStorageAdapter.writeTags, LocalMedium.setTags, hm]

theorem writeTaskTags_fail (m : LocalMedium)
    (h : m.writeFailKeys.contains TASK_TAGS_KEY = true) :
    ∀ v, LocalStorageAdapter.writeTaskTags m v = m := by
  have hm : TASK_TAGS_KEY ∈ m.writeFailKeys := by simpa using h
  intro v
  simp [LocalStorageAdapter.writeTaskTags, LocalMedium.setTaskTags, hm]

theorem writeProjectTags_fail (m : LocalMedium)
    (h : m.writeFailKeys.contains PROJECT_TAGS_KEY = true) :
    ∀ v, LocalStorageAdapter.writeProjectTags m v = m := by
  have hm : PROJECT_TAGS_KEY ∈ m.writeFailKeys := by simpa using h
  intro v
  simp [LocalStorageAdapter.writeProjectTags, LocalMedium.setProjectTags, hm]

theorem writeToday_fail (m : LocalMedium)
    (h : m.writeFailKeys.contains TODAY_KEY = true) :
    ∀ v, LocalStorageAdapter.writeToday m v = m := by
  have hm : TODAY_KEY ∈ m.writeFailKeys := by simpa using h
  intro v
  simp [LocalStorageAdapter.writeToday, LocalMedium.setToday, hm]

/-- C1: every mutating `StorageManager` facade call applies the mutation
to the local adapter (all embedded functions are total — no error reaches
the caller), appends the matching operation to the queue if and only if
remote sync is enabled, with the new operation created pending with
`retries = 0`; and even when every medium write fails (quota), the call
still completes, with the failed local write swallowed (medium
unchanged) and the enqueue still performed. -/
theorem storageManager_mutation_spec (c : MutationCall) (freshId : String)
    (now : Nat) (nowIso : String) (st : ManagerState) :
    (StorageManager.mutate c freshId now nowIso st).localMedium
        = mutationLocal c nowIso st.localMedium
    ∧ (st.enableRemoteSync = true →
        (StorageManager.mutate c freshId now nowIso st).queue.queue
          = st.queue.queue ++
            [{ id := freshId, type := mutationOpType c,
               payload := mutationPayload c, timestamp := now,
               retries := 0, status := OpStatus.pending }])
    ∧ (st.enableRemoteSync = false →
        (StorageManager.mutate c freshId now nowIso st).queue = st.queue)
    ∧ ((∀ k ∈ allStorageKeys, st.localMedium.writeFailKeys.contains k = true) →
        (StorageManager.mutate c freshId now nowIso st).localMedium
          = st.localMedium) := by
  refine ⟨rfl, ?_, ?_, ?_⟩
  · intro h
    simp [StorageManager.mutate, h, SyncQueueState.enqueue,
      persistQueue_queue]
  · intro h
    simp [StorageManager.mutate, h]
  · intro hfail
    have h1 := writeTasks_fail st.localMedium
      (hfail TASKS_KEY (by simp [allStorageKeys]))
    have h2 := writeProjects_fail st.localMedium
      (hfail PROJECTS_KEY (by simp [allStorageKeys]))
    have h3 := writeTags_fail st.localMedium
      (hfail TAGS_KEY (by simp [allStorageKeys]))
    have h4 := writeTaskTags_fail st.localMedium
      (hfail TASK_TAGS_KEY (by simp [allStorageKeys]))
    have h5 := writeProjectTags_fail st.localMedium
      (hfail PROJECT_TAGS_KEY (by simp [allStorageKeys]))
    have h6 := writeToday_fail st.localMedium
      (hfail TODAY_KEY (by simp [allStorageKeys]))
    rcases c <;>
      simp [StorageManager.mutate, mutationLocal,
        LocalStorageAdapter.addTask, LocalStorageAdapter.updateTask,
        LocalStorageAdapter.deleteTask, LocalStorageAdapter.reorderTasks,
        LocalStorageAdapter.addProject, LocalStorageAdapter.updateProject,
        LocalStorageAdapter.deleteProject, LocalStorageAdapter.reorderProjects,
        LocalStorageAdapter.addTag, LocalStorageAdapter.updateTag,
        LocalStorageAdapter.deleteTag, LocalStorageAdapter.addTaskTag,
        LocalStorageAdapter.removeTaskTag, LocalStorageAdapter.addProjectTag,
        LocalStorageAdapter.removeProjectTag,
        LocalStorageAdapter.saveTodayTasks, h1, h2, h3, h4, h5, h6]

/-! ### Durability of the queue (C8) -/

/-- A state whose queue-key `setItem` throws (quota exceeded), in sync
(the medium holds the in-memory queue). -/
def quotaFailQueueState : SyncQueueState Nat :=
  { queue := [], medium := some [], writeFails := true }

/-- Ten pending operations, all older than any new enqueue, on a healthy
medium. -/
def tenPendingState : SyncQueueState Nat :=
  { queue := [mkOp "p0" 0 OpStatus.pending 0, mkOp "p1" 1 OpStatus.pending 0,
      mkOp "p2" 2 OpStatus.pending 0, mkOp "p3" 3 OpStatus.pending 0,
      mkOp "p4" 4 OpStatus.pending 0, mkOp "p5" 5 OpStatus.pending 0,
      mkOp "p6" 6 OpStatus.pending 0, mkOp "p7" 7 OpStatus.pending 0,
      mkOp "p8" 8 OpStatus.pending 0, mkOp "p9" 9 OpStatus.pending 0],
    medium := some [mkOp "p0" 0 OpStatus.pending 0,
      mkOp "p1" 1 OpStatus.pending 0, mkOp "p2" 2 OpStatus.pending 0,
      mkOp "p3" 3 OpStatus.pending 0, mkOp "p4" 4 OpStatus.pending 0,
      mkOp "p5" 5 OpStatus.pending 0, mkOp "p6" 6 OpStatus.pending 0,
      mkOp "p7" 7 OpStatus.pending 0, mkOp "p8" 8 OpStatus.pending 0,
      mkOp "p9" 9 OpStatus.pending 0],
    writeFails := false }

/-- C8 counterexample: `persistQueue` catches and swallows a `setItem`
quota failure, leaving the stored value stale. Enqueueing an `ADD_TASK`
operation on such a medium leaves it in the in-memory queue but not in
the medium, so a fresh `SyncQueue` over the same medium does not contain
it — the claim's own scenario fails. Moreover, even on a healthy medium,
with ten older pending operations the enqueued operation is durable (the
fresh instance holds it) but `getNextBatch(10)` does not return it. -/
theorem queue_durability_counterexample :
    (SyncQueueState.enqueue "e" 10 OperationType.ADD_TASK (0 : Nat)
        quotaFailQueueState).queue
      = [{ id := "e", type := OperationType.ADD_TASK, payload := 0,
           timestamp := 10, retries := 0, status := OpStatus.pending }]
    ∧ (SyncQueueState.construct
        (SyncQueueState.enqueue "e" 10 OperationType.ADD_TASK (0 : Nat)
          quotaFailQueueState).medium
        (SyncQueueState.enqueue "e" 10 OperationType.ADD_TASK (0 : Nat)
          quotaFailQueueState).writeFails).queue = []
    ∧ ({ id := "e", type := OperationType.ADD_TASK, payload := 0,
         timestamp := 10, retries := 0, status := OpStatus.pending }
        ∈ (SyncQueueState.construct
            (SyncQueueState.enqueue "e" 10 OperationType.ADD_TASK (0 : Nat)
              tenPendingState).medium
            (SyncQueueState.enqueue "e" 10 OperationType.ADD_TASK (0 : Nat)
              tenPendingState).writeFails).queue)
    ∧ ¬ ({ id := "e", type := OperationType.ADD_TASK, payload := 0,
           timestamp := 10, retries := 0, status := OpStatus.pending }
          ∈ SyncQueueState.getNextBatch 10
              (SyncQueueState.construct
                (SyncQueueState.enqueue "e" 10 OperationType.ADD_TASK (0 : Nat)
                  tenPendingState).medium
                (SyncQueueState.enqueue "e" 10 OperationType.ADD_TASK (0 : Nat)
                  tenPendingState).writeFails)) := by
  refine ⟨by decide, by decide, by decide, ?_⟩
  simp [SyncQueueState.getNextBatch, SyncQueueState.construct,
    SyncQueueState.loadQueue, SyncQueueState.enqueue,
    SyncQueueState.persistQueue, SyncQueueState.tsLe, tenPendingState, mkOp,
    List.mergeSort]

/-- C8 amended: starting from any state whose persisted value agrees with
the in-memory queue (as the constructor guarantees) *and whose queue-key
write is not failing* (the persist's swallowed quota failure would leave
the medium stale), after any `enqueue`, `markComplete`, `markFailed`, or
`retryFailed` call, a fresh `SyncQueue` constructed over the same medium
holds exactly the operations the first instance left queued (ids, types,
payloads, timestamps, retries, statuses — the whole records); and after
an `enqueue` (e.g. of an `ADD_TASK` operation) onto a queue with *fewer
than 10 pending operations*, the fresh instance's `getNextBatch(10)`
contains the enqueued operation. -/
theorem queue_durability {α : Type} (s : SyncQueueState α)
    (hw : s.writeFails = false)
    (h : SyncQueueState.loadQueue s.medium = s.queue) (freshId : String)
    (now : Nat) (type : OperationType) (payload : α) (operationId : String) :
    ((SyncQueueState.construct
        (SyncQueueState.enqueue freshId now type payload s).medium
        (SyncQueueState.enqueue freshId now type payload s).writeFails).queue
      = (SyncQueueState.enqueue freshId now type payload s).queue)
    ∧ ((SyncQueueState.construct
        (SyncQueueState.markComplete operationId s).medium
        (SyncQueueState.markComplete operationId s).writeFails).queue
      = (SyncQueueState.markComplete operationId s).queue)
    ∧ ((SyncQueueState.construct
        (SyncQueueState.markFailed operationId s).medium
        (SyncQueueState.markFailed operationId s).writeFails).queue
      = (SyncQueueState.markFailed operationId s).queue)
    ∧ ((SyncQueueState.construct
        (SyncQueueState.retryFailed s).medium
        (SyncQueueState.retryFailed s).writeFails).queue
      = (SyncQueueState.retryFailed s).queue)
    ∧ (SyncQueueState.getPendingCount s < 10 →
        { id := freshId, type := type, payload := payload, timestamp := now,
          retries := 0, status := OpStatus.pending }
          ∈ SyncQueueState.getNextBatch 10
              (SyncQueueState.construct
                (SyncQueueState.enqueue freshId now type payload s).medium
                (SyncQueueState.enqueue freshId now type payload
                  s).writeFails)) := by
  refine ⟨construct_persistQueue _ hw, construct_persistQueue _ hw, ?_,
    construct_persistQueue _ hw, ?_⟩
  · unfold SyncQueueState.markFailed
    split
    · exact construct_persistQueue _ hw
    · exact h
  · intro hcount
    set newOp : QueuedOperation α :=
      { id := freshId, type := type, payload := payload, timestamp := now,
        retries := 0, status := OpStatus.pending } with hop
    have hmed : (SyncQueueState.enqueue freshId now type payload s).medium
        = some (s.queue ++ [newOp]) :=
      persistQueue_medium _ hw
    rw [hmed]
    show newOp ∈ (((s.queue ++ [newOp]).filter
        fun op => op.status == OpStatus.pending).mergeSort
          SyncQueueState.tsLe).take 10
    have hfil : ((s.queue ++ [newOp]).filter
          fun op => op.status == OpStatus.pending)
        = (s.queue.filter fun op => op.status == OpStatus.pending) ++
            [newOp] := by
      rw [List.filter_append]
      congr 1
    have hcount2 :
        (s.queue.filter fun op => op.status == OpStatus.pending).length < 10 :=
      hcount
    have hlen : ((s.queue ++ [newOp]).filter
          fun op => op.status == OpStatus.pending).length ≤ 10 := by
      rw [hfil]
      simp only [List.length_append, List.length_cons, List.length_nil]
      omega
    have hlen2 : (((s.queue ++ [newOp]).filter
          fun op => op.status == OpStatus.pending).mergeSort
            SyncQueueState.tsLe).length ≤ 10 := by
      rw [(List.mergeSort_perm _ _).length_eq]
      exact hlen
    rw [List.take_of_length_le hlen2]
    rw [(List.mergeSort_perm _ _).mem_iff]
    rw [hfil]
    exact List.mem_append_right _ (List.mem_singleton.mpr rfl)

theorem queue_durability_witness :
    ((SyncQueueState.construct
        (SyncQueueState.enqueue "e" 9 OperationType.ADD_TASK 0
          sampleQueueState).medium
        (SyncQueueState.enqueue "e" 9 OperationType.ADD_TASK 0
          sampleQueueState).writeFails).queue
      = (SyncQueueState.enqueue "e" 9 OperationType.ADD_TASK 0
          sampleQueueState).queue)
    ∧ { id := "e", type := OperationType.ADD_TASK, payload := 0,
        timestamp := 9, retries := 0, status := OpStatus.pending }
        ∈ SyncQueueState.getNextBatch 10
            (SyncQueueState.construct
              (SyncQueueState.enqueue "e" 9 OperationType.ADD_TASK 0
                sampleQueueState).medium
              (SyncQueueState.enqueue "e" 9 OperationType.ADD_TASK 0
                sampleQueueState).writeFails) := by
  have h := queue_durability sampleQueueState rfl (by decide) "e" 9
    OperationType.ADD_TASK 0 "a"
  exact ⟨h.1, h.2.2.2.2 (by decide)⟩

/-- A concrete task fixture. -/
def sampleTask : Task :=
  { id := "t1", title := "write spec", description := none,
    completed := false, dueDate := none, projectId := none,
    parentTaskId := none, order := 1, isDaily := false, timePeriod := none,
    timeLeft := none, lastCompleted := none, completionHistory := none,
    tags := none, createdAt := "2024-01-01T00:00:00Z" }

/-- An empty local medium whose writes succeed. -/
def emptyMedium : LocalMedium :=
  { tasks := [], projects := [], tags := [], taskTags := [],
    projectTags := [], today := [], writeFailKeys := [] }

/-- A manager with remote sync enabled over an empty healthy medium. -/
def sampleManagerState : ManagerState :=
  { localMedium := emptyMedium,
    queue := { queue := [], medium := none, writeFails := false },
    enableRemoteSync := true }

/-- The same manager over a medium on which every collection write fails. -/
def failingManagerState : ManagerState :=
  { localMedium := { emptyMedium with writeFailKeys := allStorageKeys },
    queue := { queue := [], medium := none, writeFails := false },
    enableRemoteSync := true }

theorem storageManager_mutation_spec_witness :
    (StorageManager.mutate (MutationCall.addTask sampleTask) "op1" 7 "now"
        sampleManagerState).localMedium
      = mutationLocal (MutationCall.addTask sampleTask) "now"
          sampleManagerState.localMedium
    ∧ (StorageManager.mutate (MutationCall.addTask sampleTask) "op1" 7 "now"
        sampleManagerState).queue.queue
      = [{ id := "op1", type := OperationType.ADD_TASK,
           payload := Payload.pTask sampleTask, timestamp := 7, retries := 0,
           status := OpStatus.pending }]
    ∧ (StorageManager.mutate (MutationCall.addTask sampleTask) "op1" 7 "now"
        failingManagerState).localMedium
      = failingManagerState.localMedium := by
  have h1 := storageManager_mutation_spec (MutationCall.addTask sampleTask)
    "op1" 7 "now" sampleManagerState
  have h2 := storageManager_mutation_spec (MutationCall.addTask sampleTask)
    "op1" 7 "now" failingManagerState
  refine ⟨h1.1, ?_, h2.2.2.2 (by decide)⟩
  have hq := h1.2.1 rfl
  simpa [sampleManagerState] using hq

/-! ### The retry-budget invariant (C10) -/

theorem markFailedList_mem {α : Type} {operationId : String}
    {q : List (QueuedOperation α)} {op2 : QueuedOperation α}
    (h : op2 ∈ SyncQueueState.markFailedList operationId q) :
    op2 ∈ q ∨ ∃ op ∈ q, op.id = operationId ∧
      op2 = { op with status := OpStatus.failed, retries := op.retries + 1 } := by
  induction q with
  | nil => simp [SyncQueueState.markFailedList] at h
  | cons a rest ih =>
    rw [SyncQueueState.markFailedList] at h
    by_cases ha : a.id = operationId
    · rw [if_pos ha] at h
      rcases List.mem_cons.mp h with h1 | h1
      · exact Or.inr ⟨a, List.mem_cons_self a rest, ha, h1⟩
      · exact Or.inl (List.mem_cons_of_mem a h1)
    · rw [if_neg ha] at h
      rcases List.mem_cons.mp h with h1 | h1
      · exact Or.inl (h1 ▸ List.mem_cons_self a rest)
      · rcases ih h1 with h2 | ⟨op, hop, hid, heq⟩
        · exact Or.inl (List.mem_cons_of_mem a h2)
        · exact Or.inr ⟨op, List.mem_cons_of_mem a hop, hid, heq⟩

/-- C10: in every queue state reachable from a fresh queue over an empty
medium by `enqueue`, `markComplete`, `retryFailed`, and `markFailed`
applied to an id all of whose queued carriers are pending (the only way
the worker's drain invokes `markFailed`), every queued operation has
`retries ≤ 3`, and every pending operation has `retries < 3`. -/
theorem queue_retry_budget_invariant {α : Type} {s : SyncQueueState α}
    (h : QueueReachable s) :
    ∀ op ∈ s.queue, op.retries ≤ 3 ∧
      (op.status = OpStatus.pending → op.retries < 3) := by
  induction h with
  | init =>
    intro op hop
    simp [SyncQueueState.construct, SyncQueueState.loadQueue] at hop
  | step _ hstep ih =>
    cases hstep with
    | enqueue freshId now type payload =>
      intro op hop
      rw [SyncQueueState.enqueue] at hop
      simp only [persistQueue_queue] at hop
      rcases List.mem_append.mp hop with h1 | h1
      · exact ih op h1
      · rcases List.mem_singleton.mp h1 with rfl
        refine ⟨?_, fun _ => ?_⟩ <;> simp
    | markComplete operationId =>
      intro op hop
      rw [SyncQueueState.markComplete] at hop
      simp only [persistQueue_queue] at hop
      exact ih op (List.mem_of_mem_filter hop)
    | markFailedPending operationId hpend =>
      intro op hop
      rw [SyncQueueState.markFailed] at hop
      split at hop
      · simp only [persistQueue_queue] at hop
        rcases markFailedList_mem hop with h1 | ⟨op0, hop0, hid, heq⟩
        · exact ih op h1
        · have hp : op0.status = OpStatus.pending := hpend op0 hop0 hid
          have hr : op0.retries < 3 := (ih op0 hop0).2 hp
          subst heq
          refine ⟨?_, fun hc => by simp at hc⟩
          simp only
          omega
      · exact ih op hop
    | retryFailed =>
      intro op hop
      rw [SyncQueueState.retryFailed] at hop
      simp only [persistQueue_queue] at hop
      rcases List.mem_map.mp hop with ⟨op0, hop0, heq⟩
      have h0 := ih op0 hop0
      rw [SyncQueueState.retryOp] at heq
      split at heq
      · rename_i hcond
        subst heq
        exact ⟨h0.1, fun _ => hcond.2⟩
      · subst heq
        exact h0

theorem queue_retry_budget_invariant_witness :
    ({ id := "a", type := OperationType.ADD_TASK, payload := (0 : Nat),
       timestamp := 1, retries := 0,
       status := OpStatus.pending } : QueuedOperation Nat).retries ≤ 3
    ∧ (({ id := "a", type := OperationType.ADD_TASK, payload := (0 : Nat),
          timestamp := 1, retries := 0,
          status := OpStatus.pending } : QueuedOperation Nat).status
            = OpStatus.pending →
        ({ id := "a", type := OperationType.ADD_TASK, payload := (0 : Nat),
           timestamp := 1, retries := 0,
           status := OpStatus.pending } : QueuedOperation Nat).retries < 3) := by
  have hreach : QueueReachable
      (SyncQueueState.enqueue "a" 1 OperationType.ADD_TASK (0 : Nat)
        (SyncQueueState.construct none false)) :=
    QueueReachable.step (QueueReachable.init false)
      (QueueStep.enqueue _ "a" 1 OperationType.ADD_TASK 0)
  exact queue_retry_budget_invariant hreach _ (by decide)

/-! ### Per-operation effect of a drain (C2)

The effect of `processQueue` on a single batch operation is tracked
through the sublist of queued operations carrying a given id. -/

theorem markComplete_filter_ne {α : Type} {y x : String} (hxy : y ≠ x)
    (s : SyncQueueState α) :
    ((SyncQueueState.markComplete y s).queue.filter fun op => op.id == x)
      = s.queue.filter fun op => op.id == x := by
  rw [SyncQueueState.markComplete]
  simp only [persistQueue_queue]
  rw [List.filter_filter]
  refine List.filter_congr ?_
  intro a _
  by_cases h : a.id = x
  · have h2 : ¬ (a.id = y) := by
      rw [h]
      exact Ne.symm hxy
    simp only [h, h2, beq_self_eq_true, Bool.true_and, decide_eq_true_eq]
    simp [Ne.symm hxy]
  · simp [h]

theorem markFailedList_filter_ne {α : Type} {y x : String} (hxy : y ≠ x)
    (q : List (QueuedOperation α)) :
    ((SyncQueueState.markFailedList y q).filter fun op => op.id == x)
      = q.filter fun op => op.id == x := by
  induction q with
  | nil => rfl
  | cons a rest ih =>
    rw [SyncQueueState.markFailedList]
    by_cases ha : a.id = y
    · rw [if_pos ha]
      have hax : ¬ (a.id = x) := by
        rw [ha]
        exact hxy
      simp [List.filter_cons, hax]
    · rw [if_neg ha]
      simp only [List.filter_cons]
      by_cases hax : a.id = x
      · simp [hax, ih]
      · simp [hax, ih]

theorem markFailed_filter_ne {α : Type} {y x : String} (hxy : y ≠ x)
    (s : SyncQueueState α) :
    ((SyncQueueState.markFailed y s).queue.filter fun op => op.id == x)
      = s.queue.filter fun op => op.id == x := by
  rw [SyncQueueState.markFailed]
  split
  · simp only [persistQueue_queue]
    exact markFailedList_filter_ne hxy s.queue
  · rfl

theorem processBatch_append {α : Type} (exec : QueuedOperation α → Bool)
    (l1 l2 : List (QueuedOperation α)) (s : SyncQueueState α) :
    SyncWorker.processBatch exec (l1 ++ l2) s
      = SyncWorker.processBatch exec l2 (SyncWorker.processBatch exec l1 s) := by
  induction l1 generalizing s with
  | nil => rfl
  | cons b rest ih =>
    rw [List.cons_append, SyncWorker.processBatch]
    conv_rhs => rw [SyncWorker.processBatch]
    exact ih _

theorem processBatch_filter_untouched {α : Type}
    (exec : QueuedOperation α → Bool) (batch : List (QueuedOperation α))
    (s : SyncQueueState α) (x : String) (hb : ∀ b ∈ batch, b.id ≠ x) :
    ((SyncWorker.processBatch exec batch s).queue.filter fun op => op.id == x)
      = s.queue.filter fun op => op.id == x := by
  induction batch generalizing s with
  | nil => rfl
  | cons b rest ih =>
    rw [SyncWorker.processBatch]
    have hbx : b.id ≠ x := hb b (List.mem_cons_self b rest)
    have hrest : ∀ c ∈ rest, c.id ≠ x := fun c hc =>
      hb c (List.mem_cons_of_mem b hc)
    by_cases he : exec b
    · simp only [he, if_true]
      rw [ih _ hrest]
      exact markComplete_filter_ne hbx s
    · simp only [he, if_false]
      rw [ih _ hrest]
      exact markFailed_filter_ne hbx s

theorem filter_id_eq_single {α : Type} {q : List (QueuedOperation α)}
    {op : QueuedOperation α} (hmem : op ∈ q)
    (hnd : (q.map QueuedOperation.id).Nodup) :
    q.filter (fun o => o.id == op.id) = [op] := by
  induction q with
  | nil => simp at hmem
  | cons a rest ih =>
    simp only [List.map_cons, List.nodup_cons] at hnd
    rcases List.mem_cons.mp hmem with rfl | hmem2
    · simp only [List.filter_cons, beq_self_eq_true, if_true]
      have hnil : rest.filter (fun o => o.id == op.id) = [] := by
        refine List.filter_eq_nil_iff.mpr ?_
        intro c hc
        have hcid : c.id ∈ rest.map QueuedOperation.id :=
          List.mem_map_of_mem QueuedOperation.id hc
        simp only [beq_iff_eq]
        intro hcc
        exact hnd.1 (hcc ▸ hcid)
      rw [hnil]
    · have hane : ¬ (a.id = op.id) := by
        intro hEq
        exact hnd.1 (hEq ▸ List.mem_map_of_mem QueuedOperation.id hmem2)
      simp only [List.filter_cons]
      rw [if_neg (by simpa using hane)]
      exact ih hmem2 hnd.2

theorem markFailedList_filter_eq {α : Type} {q : List (QueuedOperation α)}
    {op : QueuedOperation α} (h : q.filter (fun o => o.id == op.id) = [op]) :
    (SyncQueueState.markFailedList op.id q).filter (fun o => o.id == op.id)
      = [{ op with status := OpStatus.failed, retries := op.retries + 1 }] := by
  induction q with
  | nil => simp at h
  | cons a rest ih =>
    rw [SyncQueueState.markFailedList]
    by_cases ha : a.id = op.id
    · rw [if_pos ha]
      rw [List.filter_cons, if_pos (by simpa using ha)] at h
      have hhead : a = op := (List.cons_eq_cons.mp h).1
      have htail : rest.filter (fun o => o.id == op.id) = [] :=
        (List.cons_eq_cons.mp h).2
      rw [List.filter_cons]
      rw [if_pos (by simpa using ha)]
      rw [htail, hhead]
    · rw [if_neg ha]
      rw [List.filter_cons, if_neg (by simpa using ha)] at h
      rw [List.filter_cons, if_neg (by simpa using ha)]
      exact ih h

theorem markComplete_filter_self {α : Type} (x : String)
    (s : SyncQueueState α) :
    ((SyncQueueState.markComplete x s).queue.filter fun o => o.id == x)
      = [] := by
  rw [SyncQueueState.markComplete]
  simp only [persistQueue_queue]
  rw [List.filter_filter]
  refine List.filter_eq_nil_iff.mpr ?_
  intro a _
  by_cases h : a.id = x <;> simp [h]

theorem getNextBatch_mem_queue {α : Type} {n : Nat} {s : SyncQueueState α}
    {op : QueuedOperation α} (h : op ∈ SyncQueueState.getNextBatch n s) :
    op ∈ s.queue := by
  have h1 := (List.take_sublist n _).mem h
  have h2 := (List.mergeSort_perm _ SyncQueueState.tsLe).mem_iff.mp h1
  exact List.mem_of_mem_filter h2

theorem getNextBatch_ids_nodup {α : Type} (n : Nat) (s : SyncQueueState α)
    (hnd : (s.queue.map QueuedOperation.id).Nodup) :
    ((SyncQueueState.getNextBatch n s).map QueuedOperation.id).Nodup := by
  have h1 : ((s.queue.filter fun op => op.status == OpStatus.pending).map
      QueuedOperation.id).Nodup :=
    hnd.sublist ((List.filter_sublist _).map QueuedOperation.id)
  have h2 : (((s.queue.filter fun op => op.status == OpStatus.pending).mergeSort
      SyncQueueState.tsLe).map QueuedOperation.id).Nodup :=
    (((List.mergeSort_perm _ SyncQueueState.tsLe).map
      QueuedOperation.id).nodup_iff).mpr h1
  exact h2.sublist ((List.take_sublist n _).map QueuedOperation.id)

/-- C2: a drain pass (guards cleared, queue ids distinct) executes the
batch strictly sequentially and treats each operation independently: an
operation whose remote execution succeeds ends removed from the queue
(`markComplete`), and one whose remote execution throws ends retained
with status failed and retries incremented by one (`markFailed`) — in
both cases the remaining operations of the batch are still executed, and
`processQueue` (a total function) lets no exception escape. -/
theorem processQueue_per_operation {α : Type}
    (exec : QueuedOperation α → Bool) (w : WorkerState α)
    (hnd : (w.queueState.queue.map QueuedOperation.id).Nodup)
    (hproc : w.isProcessing = false) (hon : w.online = true)
    (op : QueuedOperation α)
    (hop : op ∈ SyncQueueState.getNextBatch 10 w.queueState) :
    (exec op = true →
      ((SyncWorker.processQueue exec w).queueState.queue.filter
          fun o => o.id == op.id) = [])
    ∧ (exec op = false →
      ((SyncWorker.processQueue exec w).queueState.queue.filter
          fun o => o.id == op.id)
        = [({ op with status := OpStatus.failed, retries := op.retries + 1 }
            : QueuedOperation α)]) := by
  have hred : (SyncWorker.processQueue exec w).queueState
      = SyncWorker.processBatch exec
          (SyncQueueState.getNextBatch 10 w.queueState) w.queueState := by
    rw [SyncWorker.processQueue]
    rw [if_neg (by simp [hproc])]
    rw [if_neg (by simp [hon])]
  obtain ⟨pre, post, hsplit⟩ := List.append_of_mem hop
  have hbnd := getNextBatch_ids_nodup 10 w.queueState hnd
  rw [hsplit] at hbnd
  simp only [List.map_append, List.map_cons, List.nodup_append,
    List.nodup_cons] at hbnd
  have hpre : ∀ b ∈ pre, b.id ≠ op.id := by
    intro b hb hEq
    have hmem1 : b.id ∈ pre.map QueuedOperation.id :=
      List.mem_map_of_mem QueuedOperation.id hb
    have := hbnd.2.2 hmem1
    rw [hEq] at this
    exact this (List.mem_cons_self op.id _)
  have hpost : ∀ b ∈ post, b.id ≠ op.id := by
    intro b hb hEq
    exact hbnd.2.1.1 (hEq ▸ List.mem_map_of_mem QueuedOperation.id hb)
  have hqmem : op ∈ w.queueState.queue := getNextBatch_mem_queue hop
  have hsingle : w.queueState.queue.filter (fun o => o.id == op.id) = [op] :=
    filter_id_eq_single hqmem hnd
  have hs1 : (SyncWorker.processBatch exec pre w.queueState).queue.filter
      (fun o => o.id == op.id) = [op] := by
    rw [processBatch_filter_untouched exec pre w.queueState op.id hpre]
    exact hsingle
  have hopmem1 : op ∈ (SyncWorker.processBatch exec pre w.queueState).queue := by
    have : op ∈ (SyncWorker.processBatch exec pre w.queueState).queue.filter
        (fun o => o.id == op.id) := by
      rw [hs1]
      exact List.mem_singleton.mpr rfl
    exact List.mem_of_mem_filter this
  rw [hred, hsplit, processBatch_append]
  constructor
  · intro he
    rw [SyncWorker.processBatch]
    simp only [he, if_true]
    rw [processBatch_filter_untouched exec post _ op.id hpost]
    exact markComplete_filter_self op.id _
  · intro he
    rw [SyncWorker.processBatch]
    simp only [he, Bool.false_eq_true, if_false]
    rw [processBatch_filter_untouched exec post _ op.id hpost]
    rw [SyncQueueState.markFailed]
    rw [if_pos (List.any_eq_true.mpr ⟨op, hopmem1, by simp⟩)]
    rw [persistQueue_queue]
    exact markFailedList_filter_eq hs1

/-- The 3-operation scenario state: three pending operations. -/
def threeOpWorker : WorkerState Nat :=
  { queueState :=
      { queue := [mkOp "a" 1 OpStatus.pending 0, mkOp "b" 2 OpStatus.pending 0,
          mkOp "c" 3 OpStatus.pending 0],
        medium := some [mkOp "a" 1 OpStatus.pending 0,
          mkOp "b" 2 OpStatus.pending 0, mkOp "c" 3 OpStatus.pending 0],
        writeFails := false },
    isProcessing := false, online := true }

/-- Remote execution oracle that throws exactly on operation "b". -/
def failSecond (op : QueuedOperation Nat) : Bool :=
  ¬ (op.id = "b")

theorem processQueue_per_operation_witness :
    ((SyncWorker.processQueue failSecond threeOpWorker).queueState.queue.filter
        fun o => o.id == "a") = []
    ∧ ((SyncWorker.processQueue failSecond threeOpWorker).queueState.queue.filter
        fun o => o.id == "b")
      = [mkOp "b" 2 OpStatus.failed 1]
    ∧ ((SyncWorker.processQueue failSecond threeOpWorker).queueState.queue.filter
        fun o => o.id == "c") = [] := by
  have hmema : mkOp "a" 1 OpStatus.pending 0 ∈
      SyncQueueState.getNextBatch 10 threeOpWorker.queueState := by
    simp [SyncQueueState.getNextBatch, threeOpWorker, mkOp, List.mergeSort,
      SyncQueueState.tsLe]
  have hmemb : mkOp "b" 2 OpStatus.pending 0 ∈
      SyncQueueState.getNextBatch 10 threeOpWorker.queueState := by
    simp [SyncQueueState.getNextBatch, threeOpWorker, mkOp, List.mergeSort,
      SyncQueueState.tsLe]
  have hmemc : mkOp "c" 3 OpStatus.pending 0 ∈
      SyncQueueState.getNextBatch 10 threeOpWorker.queueState := by
    simp [SyncQueueState.getNextBatch, threeOpWorker, mkOp, List.mergeSort,
      SyncQueueState.tsLe]
  have ha := processQueue_per_operation failSecond threeOpWorker (by decide)
    rfl rfl (mkOp "a" 1 OpStatus.pending 0) hmema
  have hb := processQueue_per_operation failSecond threeOpWorker (by decide)
    rfl rfl (mkOp "b" 2 OpStatus.pending 0) hmemb
  have hc := processQueue_per_operation failSecond threeOpWorker (by decide)
    rfl rfl (mkOp "c" 3 OpStatus.pending 0) hmemc
  exact ⟨ha.1 (by decide), hb.2 (by decide), hc.1 (by decide)⟩

/-! ### `pullFromRemote` (C3)

The six fetches are combined with `Promise.all`, so a single rejected
fetch rejects the combined promise before any save runs; only the local
saves are isolated (`Promise.allSettled`). -/

/-- Fetch results in which the projects fetch rejects while every other
fetch (tasks in particular) resolves. -/
def pullFetches : SyncWorker.FetchResults :=
  { tasks := Except.ok [sampleTask], projects := Except.error "network",
    tags := Except.ok [], taskTags := Except.ok [],
    projectTags := Except.ok [], today := Except.ok [] }

/-- C3 counterexample: with the projects fetch rejecting and the tasks
fetch resolving with a task, `pullFromRemote` leaves the whole local
medium untouched — the successfully fetched tasks collection is *not*
written over the local tasks collection, contradicting the claim. -/
theorem pullFromRemote_claim_counterexample :
    SyncWorker.pullFromRemote pullFetches true emptyMedium = emptyMedium
    ∧ (SyncWorker.pullFromRemote pullFetches true emptyMedium).tasks
        ≠ [sampleTask] := by
  refine ⟨rfl, ?_⟩
  decide

attribute [ext] LocalMedium

theorem settleSave_setTasks (v : List Task) (m : LocalMedium) :
    SyncWorker.settleSave LocalMedium.setTasks v m
      = if m.writeFailKeys.contains TASKS_KEY then m
        else { m with tasks := v } := by
  rw [SyncWorker.settleSave, LocalMedium.setTasks]
  by_cases hc : TASKS_KEY ∈ m.writeFailKeys
  · simp [hc]
  · simp [hc]

theorem settleSave_setProjects (v : List Project) (m : LocalMedium) :
    SyncWorker.settleSave LocalMedium.setProjects v m
      = if m.writeFailKeys.contains PROJECTS_KEY then m
        else { m with projects := v } := by
  rw [SyncWorker.settleSave, LocalMedium.setProjects]
  by_cases hc : PROJECTS_KEY ∈ m.writeFailKeys
  · simp [hc]
  · simp [hc]

theorem settleSave_setTags (v : List Tag) (m : LocalMedium) :
    SyncWorker.settleSave LocalMedium.setTags v m
      = if m.writeFailKeys.contains TAGS_KEY then m
        else { m with tags := v } := by
  rw [SyncWorker.settleSave, LocalMedium.setTags]
  by_cases hc : TAGS_KEY ∈ m.writeFailKeys
  · simp [hc]
  · simp [hc]

theorem settleSave_setTaskTags (v : List TaskTag) (m : LocalMedium) :
    SyncWorker.settleSave LocalMedium.setTaskTags v m
      = if m.writeFailKeys.contains TASK_TAGS_KEY then m
        else { m with taskTags := v } := by
  rw [SyncWorker.settleSave, LocalMedium.setTaskTags]
  by_cases hc : TASK_TAGS_KEY ∈ m.writeFailKeys
  · simp [hc]
  · simp [hc]

theorem settleSave_setProjectTags (v : List ProjectTag) (m : LocalMedium) :
    SyncWorker.settleSave LocalMedium.setProjectTags v m
      = if m.writeFailKeys.contains PROJECT_TAGS_KEY then m
        else { m with projectTags := v } := by
  rw [SyncWorker.settleSave, LocalMedium.setProjectTags]
  by_cases hc : PROJECT_TAGS_KEY ∈ m.writeFailKeys
  · simp [hc]
  · simp [hc]

theorem settleSave_setToday (v : List TodayTask) (m : LocalMedium) :
    SyncWorker.settleSave LocalMedium.setToday v m
      = if m.writeFailKeys.contains TODAY_KEY then m
        else { m with today := v } := by
  rw [SyncWorker.settleSave, LocalMedium.setToday]
  by_cases hc : TODAY_KEY ∈ m.writeFailKeys
  · simp [hc]
  · simp [hc]

/-- C3 amended: when any collection fetch rejects, `pullFromRemote`
writes nothing — every local collection is left untouched — and no
rejection escapes (the function is total); when all six fetches resolve,
each fetched collection is written over the corresponding local
collection unless its own local save fails, and a failing save is
isolated to its collection (the other collections are still written). -/
theorem pullFromRemote_spec (f : SyncWorker.FetchResults) (m : LocalMedium) :
    (∀ e, SyncWorker.fetchAll f = Except.error e →
        SyncWorker.pullFromRemote f true m = m)
    ∧ (∀ tasks projects tags taskTags projectTags today,
        SyncWorker.fetchAll f
          = Except.ok (tasks, projects, tags, taskTags, projectTags, today) →
        SyncWorker.pullFromRemote f true m
          = { tasks :=
                if m.writeFailKeys.contains TASKS_KEY then m.tasks else tasks,
              projects :=
                if m.writeFailKeys.contains PROJECTS_KEY then m.projects
                else projects,
              tags :=
                if m.writeFailKeys.contains TAGS_KEY then m.tags else tags,
              taskTags :=
                if m.writeFailKeys.contains TASK_TAGS_KEY then m.taskTags
                else taskTags,
              projectTags :=
                if m.writeFailKeys.contains PROJECT_TAGS_KEY then m.projectTags
                else projectTags,
              today :=
                if m.writeFailKeys.contains TODAY_KEY then m.today else today,
              writeFailKeys := m.writeFailKeys }) := by
  constructor
  · intro e he
    simp [SyncWorker.pullFromRemote, he]
  · intro tasks projects tags taskTags projectTags today hok
    rw [SyncWorker.pullFromRemote]
    simp only [Bool.not_true, Bool.false_eq_true, if_false, hok]
    ext : 1 <;>
      simp [settleSave_setTasks, settleSave_setProjects, settleSave_setTags,
        settleSave_setTaskTags, settleSave_setProjectTags, settleSave_setToday,
        apply_ite LocalMedium.tasks, apply_ite LocalMedium.projects,
        apply_ite LocalMedium.tags, apply_ite LocalMedium.taskTags,
        apply_ite LocalMedium.projectTags, apply_ite LocalMedium.today,
        apply_ite LocalMedium.writeFailKeys]

/-- A concrete project fixture. -/
def sampleProject : Project :=
  { id := "p1", name := "home", description := none, completed := false,
    order := 0, tags := none, createdAt := "2024-01-01T00:00:00Z" }

/-- Fetch results in which all six fetches resolve. -/
def okFetches : SyncWorker.FetchResults :=
  { tasks := Except.ok [sampleTask], projects := Except.ok [],
    tags := Except.ok [], taskTags := Except.ok [],
    projectTags := Except.ok [], today := Except.ok [] }

/-- A medium holding a project whose projects save fails. -/
def projFailMedium : LocalMedium :=
  { tasks := [], projects := [sampleProject], tags := [], taskTags := [],
    projectTags := [], today := [], writeFailKeys := [PROJECTS_KEY] }

theorem pullFromRemote_spec_witness :
    SyncWorker.pullFromRemote pullFetches true emptyMedium = emptyMedium
    ∧ SyncWorker.pullFromRemote okFetches true projFailMedium
      = { tasks := [sampleTask], projects := [sampleProject], tags := [],
          taskTags := [], projectTags := [], today := [],
          writeFailKeys := [PROJECTS_KEY] } := by
  constructor
  · exact (pullFromRemote_spec pullFetches emptyMedium).1 "network" rfl
  · have h := (pullFromRemote_spec okFetches projFailMedium).2 [sampleTask]
      [] [] [] [] [] rfl
    rw [h]
    simp [projFailMedium, PROJECTS_KEY, TASKS_KEY, TAGS_KEY, TASK_TAGS_KEY,
      PROJECT_TAGS_KEY, TODAY_KEY]

/-! ### Wire-format round trip (C7) -/

/-- `toSnakeCase` on each camelCase key occurring in the entity shapes,
computed once. -/
theorem snake_id : RemoteStorageAdapter.snakeCaseKey "id" = "id" := by decide

theorem snake_title : RemoteStorageAdapter.snakeCaseKey "title" = "title" := by
  decide

theorem snake_name : RemoteStorageAdapter.snakeCaseKey "name" = "name" := by
  decide

theorem snake_color : RemoteStorageAdapter.snakeCaseKey "color" = "color" := by
  decide

theorem snake_description :
    RemoteStorageAdapter.snakeCaseKey "description" = "description" := by
  decide

theorem snake_completed :
    RemoteStorageAdapter.snakeCaseKey "completed" = "completed" := by decide

theorem snake_dueDate :
    RemoteStorageAdapter.snakeCaseKey "dueDate" = "due_date" := by decide

theorem snake_projectId :
    RemoteStorageAdapter.snakeCaseKey "projectId" = "project_id" := by decide

theorem snake_parentTaskId :
    RemoteStorageAdapter.snakeCaseKey "parentTaskId" = "parent_task_id" := by
  decide

theorem snake_order : RemoteStorageAdapter.snakeCaseKey "order" = "order" := by
  decide

theorem snake_isDaily :
    RemoteStorageAdapter.snakeCaseKey "isDaily" = "is_daily" := by decide

theorem snake_timePeriod :
    RemoteStorageAdapter.snakeCaseKey "timePeriod" = "time_period" := by decide

theorem snake_timeLeft :
    RemoteStorageAdapter.snakeCaseKey "timeLeft" = "time_left" := by decide

theorem snake_lastCompleted :
    RemoteStorageAdapter.snakeCaseKey "lastCompleted" = "last_completed" := by
  decide

theorem snake_completionHistory :
    RemoteStorageAdapter.snakeCaseKey "completionHistory"
      = "completion_history" := by
  decide

theorem snake_tags : RemoteStorageAdapter.snakeCaseKey "tags" = "tags" := by
  decide

theorem snake_createdAt :
    RemoteStorageAdapter.snakeCaseKey "createdAt" = "created_at" := by decide

theorem map_snake_optEntry {γ : Type} (k : String) (f : γ → DbValue)
    (o : Option γ) :
    (RemoteStorageAdapter.optEntry k f o).map
        (fun kv => (RemoteStorageAdapter.snakeCaseKey kv.1, kv.2))
      = RemoteStorageAdapter.optEntry (RemoteStorageAdapter.snakeCaseKey k)
          f o := by
  cases o <;> rfl

theorem lookup_append (k : String) (l1 l2 : DbRecord) :
    (l1 ++ l2).lookup k = ((l1.lookup k).orElse fun _ => l2.lookup k) := by
  induction l1 with
  | nil => rfl
  | cons kv rest ih =>
    rw [List.cons_append]
    rw [List.lookup]
    rw [List.lookup]
    by_cases hk : (k == kv.1) = true
    · simp [hk]
    · simp only [Bool.not_eq_true] at hk
      simp [hk, ih]

theorem lookup_optEntry_self {γ : Type} (k : String) (f : γ → DbValue)
    (o : Option γ) :
    (RemoteStorageAdapter.optEntry k f o).lookup k = o.map f := by
  cases o <;> simp [RemoteStorageAdapter.optEntry, List.lookup]

theorem lookup_optEntry_ne {γ : Type} {k k2 : String} (h : (k == k2) = false)
    (f : γ → DbValue) (o : Option γ) :
    (RemoteStorageAdapter.optEntry k2 f o).lookup k = none := by
  cases o <;> simp [RemoteStorageAdapter.optEntry, List.lookup, h]

theorem asStr_map_vStr (o : Option String) :
    RemoteStorageAdapter.asStr (o.map DbValue.vStr) = o := by
  cases o <;> rfl

theorem asInt_map_vInt (o : Option Int) :
    RemoteStorageAdapter.asInt (o.map DbValue.vInt) = o := by
  cases o <;> rfl

theorem asHist_map_vHist (o : Option (List (String × Bool))) :
    RemoteStorageAdapter.asHist (o.map DbValue.vHist) = o := by
  cases o <;> rfl

theorem asStr_some_vStr (v : String) :
    RemoteStorageAdapter.asStr (some (DbValue.vStr v)) = some v := rfl

theorem asInt_some_vInt (v : Int) :
    RemoteStorageAdapter.asInt (some (DbValue.vInt v)) = some v := rfl

theorem asBool_some_vBool (v : Bool) :
    RemoteStorageAdapter.asBool (some (DbValue.vBool v)) = some v := rfl

/-- A task whose optional in-memory `tags` field is present. -/
def taggedTask : Task := { sampleTask with tags := some ["urgent"] }

/-- C7 counterexample: the in-memory → wire → in-memory round trip does
not reproduce a task carrying its optional `tags` field: `taskToDb`
copies `tags` onto the wire but `dbToTask` never reads a `tags` key, so
the field is dropped (the same holds for `Project`). The translation is
therefore not round-trip-safe for every well-formed entity value. -/
theorem wire_roundtrip_counterexample :
    RemoteStorageAdapter.dbToTask (RemoteStorageAdapter.taskToDb taggedTask)
      ≠ some taggedTask := by
  decide

set_option maxHeartbeats 3200000 in
/-- C7 amended: the wire translation is exhaustive and round-trip-safe
on every field except the in-memory `tags` convenience field of `Task`
and `Project` (which the wire reader drops): the round trip reproduces
every `Tag`, `TaskTag`, `ProjectTag` and `TodaySlot` exactly, and every
`Task` and `Project` whose `tags` field is absent. -/
theorem wire_roundtrip (t : Task) (p : Project) (tg : Tag) (tt : TaskTag)
    (pt : ProjectTag) (td : TodayTask) (ht : t.tags = none)
    (hp : p.tags = none) :
    RemoteStorageAdapter.dbToTask (RemoteStorageAdapter.taskToDb t) = some t
    ∧ RemoteStorageAdapter.dbToProject (RemoteStorageAdapter.projectToDb p)
        = some p
    ∧ RemoteStorageAdapter.dbToTag (RemoteStorageAdapter.tagToDb tg) = some tg
    ∧ RemoteStorageAdapter.dbToTaskTag (RemoteStorageAdapter.taskTagToDb tt)
        = some tt
    ∧ RemoteStorageAdapter.dbToProjectTag
        (RemoteStorageAdapter.projectTagToDb pt) = some pt
    ∧ RemoteStorageAdapter.dbToTodayTask
        (RemoteStorageAdapter.todayTaskToDb td) = some td := by
  refine ⟨?_, ?_, ?_, ?_, ?_, ?_⟩
  · obtain ⟨i, ti, de, co, du, pr, pa, or, da, tp, tl, lc, ch, tg2, ca⟩ := t
    replace ht : tg2 = none := ht
    subst ht
    rw [RemoteStorageAdapter.taskToDb, RemoteStorageAdapter.taskEntries]
    simp only [List.map_append, map_snake_optEntry, List.map_cons,
      List.map_nil, snake_id, snake_title, snake_description, snake_completed,
      snake_dueDate, snake_projectId, snake_parentTaskId, snake_order,
      snake_isDaily, snake_timePeriod, snake_timeLeft, snake_lastCompleted,
      snake_completionHistory, snake_tags, snake_createdAt]
    simp [RemoteStorageAdapter.dbToTask, lookup_append, lookup_optEntry_self,
      lookup_optEntry_ne, List.lookup, asStr_map_vStr, asInt_map_vInt,
      asHist_map_vHist, asStr_some_vStr, asInt_some_vInt, asBool_some_vBool]
  · obtain ⟨i, n, de, co, or, tg2, ca⟩ := p
    replace hp : tg2 = none := hp
    subst hp
    rw [RemoteStorageAdapter.projectToDb, RemoteStorageAdapter.projectEntries]
    simp only [List.map_append, map_snake_optEntry, List.map_cons,
      List.map_nil, snake_id, snake_name, snake_description, snake_completed,
      snake_order, snake_tags, snake_createdAt]
    simp [RemoteStorageAdapter.dbToProject, lookup_append,
      lookup_optEntry_self, lookup_optEntry_ne, List.lookup, asStr_map_vStr,
      asStr_some_vStr, asInt_some_vInt, asBool_some_vBool]
  · obtain ⟨i, n, co, ca⟩ := tg
    rw [RemoteStorageAdapter.tagToDb, RemoteStorageAdapter.tagEntries]
    simp only [List.map_append, map_snake_optEntry, List.map_cons,
      List.map_nil, snake_id, snake_name, snake_color, snake_createdAt]
    simp [RemoteStorageAdapter.dbToTag, lookup_append, lookup_optEntry_self,
      lookup_optEntry_ne, List.lookup, asStr_map_vStr, asStr_some_vStr]
  · obtain ⟨a, b, c⟩ := tt
    rfl
  · obtain ⟨a, b, c⟩ := pt
    rfl
  · obtain ⟨a, b⟩ := td
    rfl

/-- Concrete fixtures for the remaining entity kinds. -/
def sampleTag : Tag :=
  { id := "g1", name := "urgent", color := some "#f00",
    createdAt := "2024-01-01T00:00:00Z" }

def sampleTaskTag : TaskTag :=
  { taskId := "t1", tagId := "g1", createdAt := "2024-01-01T00:00:00Z" }

def sampleProjectTag : ProjectTag :=
  { projectId := "p1", tagId := "g1", createdAt := "2024-01-01T00:00:00Z" }

def sampleTodayTask : TodayTask := { taskId := "t1", order := 0 }

theorem wire_roundtrip_witness :
    RemoteStorageAdapter.dbToTask (RemoteStorageAdapter.taskToDb sampleTask)
        = some sampleTask
    ∧ RemoteStorageAdapter.dbToProject
        (RemoteStorageAdapter.projectToDb sampleProject) = some sampleProject
    ∧ RemoteStorageAdapter.dbToTag (RemoteStorageAdapter.tagToDb sampleTag)
        = some sampleTag
    ∧ RemoteStorageAdapter.dbToTaskTag
        (RemoteStorageAdapter.taskTagToDb sampleTaskTag) = some sampleTaskTag
    ∧ RemoteStorageAdapter.dbToProjectTag
        (RemoteStorageAdapter.projectTagToDb sampleProjectTag)
        = some sampleProjectTag
    ∧ RemoteStorageAdapter.dbToTodayTask
        (RemoteStorageAdapter.todayTaskToDb sampleTodayTask)
        = some sampleTodayTask :=
  wire_roundtrip sampleTask sampleProject sampleTag sampleTaskTag
    sampleProjectTag sampleTodayTask rfl rfl

end IntentionalitySync
